import Mathlib

/-!
Shallow embedding of the DMG emulator core (Rust sources under `src/`) and
proofs about its externally specified behaviour.  Machine integers are
modelled as `Nat` with explicit wrap-around (`% 2^8`, `% 2^16`) exactly where
the Rust code performs wrapping arithmetic; fallible Rust code (`unwrap`,
array-indexing `unwrap`) is modelled with `Option`.
-/

namespace GB

/-- Byte-store update (a Rust array write `a[k] = v` on a store modelled as a
function). -/
def upd (f : Nat → Nat) (k v : Nat) : Nat → Nat := fun i => if i = k then v else f i

/-- Helper for 8-bit wrap-around, for Rust `u8` wrapping arithmetic. -/
def wrap8 (n : Nat) : Nat := n % 256

/-- Helper for 16-bit wrap-around, for Rust `u16` wrapping arithmetic. -/
def wrap16 (n : Nat) : Nat := n % 65536

/-- Rust `u16::wrapping_sub` on values below `2^16`. -/
def sub16 (x y : Nat) : Nat := (x + 65536 - y % 65536) % 65536

/-- The `is_flag_set!` macro from `src/flags.rs`: `($num & $mask) == $mask`. -/
def isFlagSet (num mask : Nat) : Bool := (num &&& mask) == mask

/-- A kind of interrupt (`Interrupt` in `src/interrupts.rs`). -/
inductive Interrupt
  | vblank
  | lcd
  | timer
  | serial
  | joypad
deriving DecidableEq

/-- The discriminant value of the `Interrupt` enum (`1 << i`). -/
def Interrupt.toBit : Interrupt → Nat
  | .vblank => 1
  | .lcd => 2
  | .timer => 4
  | .serial => 8
  | .joypad => 16

/-- Bit index of the interrupt, i.e. `(self as u8).trailing_zeros()` of its
single-bit discriminant. -/
def Interrupt.bitIdx : Interrupt → Nat
  | .vblank => 0
  | .lcd => 1
  | .timer => 2
  | .serial => 3
  | .joypad => 4

/-- Rust `Interrupt::to_vector` from `src/interrupts.rs`:
`0x0040 + trailing_zeros * 0x08`. -/
def Interrupt.to_vector (i : Interrupt) : Nat := 0x40 + i.bitIdx * 8

/-- Modelled from the spec: `Interrupt::prioritize` is called by
`Cpu::step_interrupts` but its body is not part of this source snapshot; per
the spec, priority goes to the smaller bit index ("smaller bit index wins
ties", "pick the higher-priority survivor"). -/
def Interrupt.prioritize (old new : Interrupt) : Interrupt :=
  if old.bitIdx ≤ new.bitIdx then old else new

/-- The interrupt latch (`Interrupts` in `src/interrupts.rs`): the `IF`
(requested) and `IE` (enabled) registers. -/
structure Interrupts where
  requested : Nat
  enabled : Nat
deriving DecidableEq

/-- Rust `Interrupts::new`. -/
def Interrupts.new : Interrupts := { requested := 0, enabled := 0 }

/-- Rust `Interrupts::set_enabled`: all 8 bits of IE are read/write. -/
def Interrupts.set_enabled (i : Interrupts) (value : Nat) : Interrupts :=
  { i with enabled := value }

/-- Rust `Interrupts::enabled_bitfield`. -/
def Interrupts.enabled_bitfield (i : Interrupts) : Nat := i.enabled

/-- Rust `Interrupts::request_interrupt` (the `add_flag!` macro ORs the bit in). -/
def Interrupts.request_interrupt (i : Interrupts) (k : Interrupt) : Interrupts :=
  { i with requested := i.requested ||| k.toBit }

/-- Rust `Interrupts::set_requested`: only the lower 5 bits of IF are read/write. -/
def Interrupts.set_requested (i : Interrupts) (value : Nat) : Interrupts :=
  { i with requested := value &&& 0x1F }

/-- Rust `Interrupts::clear_interrupt` (the `remove_flag!` macro ANDs with the
complemented `u8` mask). -/
def Interrupts.clear_interrupt (i : Interrupts) (k : Interrupt) : Interrupts :=
  { i with requested := i.requested &&& (k.toBit ^^^ 0xFF) }

/-- Rust `Interrupts::requested_bitfield`: the upper 3 bits of IF read as set. -/
def Interrupts.requested_bitfield (i : Interrupts) : Nat := i.requested ||| 0xE0

/-- Rust `Interrupts::pending_bitfield`. -/
def Interrupts.pending_bitfield (i : Interrupts) : Nat :=
  i.enabled_bitfield &&& i.requested_bitfield &&& 0x1F

/-- Rust `Interrupts::next_interrupt_from_bitfield`: the pending interrupt of
lowest bit value, if any. -/
def Interrupts.next_interrupt_from_bitfield (bitfield : Nat) : Option Interrupt :=
  let pending := bitfield &&& 0x1F
  if isFlagSet pending Interrupt.vblank.toBit then some .vblank
  else if isFlagSet pending Interrupt.lcd.toBit then some .lcd
  else if isFlagSet pending Interrupt.timer.toBit then some .timer
  else if isFlagSet pending Interrupt.serial.toBit then some .serial
  else if isFlagSet pending Interrupt.joypad.toBit then some .joypad
  else none

/-- Spec-side description of interrupt selection: the lowest set bit index
among the low five bits of a bitfield, if any. -/
def lowestSetBitIdx5 (b : Nat) : Option Nat :=
  if b &&& 1 ≠ 0 then some 0
  else if b &&& 2 ≠ 0 then some 1
  else if b &&& 4 ≠ 0 then some 2
  else if b &&& 8 ≠ 0 then some 3
  else if b &&& 16 ≠ 0 then some 4
  else none

/-- Spec-side description of the surviving choice between the two pending-set
observations made during interrupt servicing: the smaller lowest-bit index of
the non-empty observations, or none when both observations are empty. -/
def survivorBit (b1 b2 : Nat) : Option Nat :=
  match lowestSetBitIdx5 b1, lowestSetBitIdx5 b2 with
  | none, none => none
  | some k, none => some k
  | none, some k => some k
  | some k1, some k2 => some (min k1 k2)

/-- The timer (`Timer` in `src/hardware/timer.rs`). -/
structure Timer where
  tima : Nat
  tma : Nat
  tac : Nat
  counter : Nat
  overflowed : Bool
  prevAndResult : Bool
deriving DecidableEq

/-- Rust `Timer::new`. -/
def Timer.new : Timer :=
  { tima := 0, tma := 0, tac := 0, counter := 0xABCC,
    overflowed := false, prevAndResult := false }

/-- Rust `tac_bit_mask` from `src/hardware/timer.rs`. -/
def tacBitMask (tac : Nat) : Nat :=
  match tac &&& 0x3 with
  | 0 => 1 <<< 9
  | 1 => 1 <<< 3
  | 2 => 1 <<< 5
  | _ => 1 <<< 7

/-- Rust `TIMER_ENABLE_MASK` from `src/hardware/timer.rs`. -/
def TIMER_ENABLE_MASK : Nat := 0x04

/-- One iteration of the loop body of `Timer::step`. -/
def Timer.stepOne (t : Timer) (intr : Interrupts) : Timer × Interrupts :=
  let counter := wrap16 (t.counter + 1)
  if t.overflowed then
    ({ t with counter, overflowed := false, tima := t.tma },
      intr.request_interrupt .timer)
  else
    let curr := isFlagSet t.tac TIMER_ENABLE_MASK && isFlagSet counter (tacBitMask t.tac)
    let t' :=
      if t.prevAndResult && !curr then
        let tima := wrap8 (t.tima + 1)
        { t with tima, overflowed := tima == 0 }
      else t
    ({ t' with counter, prevAndResult := curr }, intr)

/-- Rust `Timer::step` over a number of cycles. -/
def Timer.step (t : Timer) (intr : Interrupts) : Nat → Timer × Interrupts
  | 0 => (t, intr)
  | n + 1 =>
    let p := t.stepOne intr
    p.1.step p.2 n

/-- Rust `Timer::read_register`. -/
def Timer.read_register (t : Timer) (address : Nat) : Nat :=
  if address = 0xFF04 then (t.counter &&& 0xFF00) >>> 8
  else if address = 0xFF05 then t.tima
  else if address = 0xFF06 then t.tma
  else if address = 0xFF07 then t.tac
  else 0

/-- Rust `Timer::write_register`. -/
def Timer.write_register (t : Timer) (address value : Nat) : Timer :=
  if address = 0xFF04 then
    { t with counter := 0 }
  else if address = 0xFF05 then
    if t.overflowed then { t with tima := value, overflowed := false }
    else { t with tima := value }
  else if address = 0xFF06 then
    { t with tma := value }
  else if address = 0xFF07 then
    { t with
      prevAndResult :=
        isFlagSet t.tac TIMER_ENABLE_MASK && isFlagSet t.counter (tacBitMask t.tac),
      tac := value &&& 0x07 }
  else t

/-- C5: a write to DIV (0xFF04) only zeroes the 16-bit internal counter; in
particular TIMA is left untouched and no falling-edge check is performed at
the moment of the write, for every timer state and every written value. -/
theorem c5_div_write_resets_counter_only (t : Timer) (v : Nat) :
    Timer.write_register t 0xFF04 v = { t with counter := 0 } := rfl

/-- C6: while `overflowed` is set (the 4-T-cycle reload window, which lasts
exactly one M-cycle step of the timer): (a) an undisturbed next step reloads
TIMA from TMA and requests the timer interrupt; (b) a TIMA write inside the
window cancels the reload and the interrupt and TIMA keeps the written value
through the next step; (c) a TMA write inside the window retroactively
changes the reloaded value; (d) once the reload step has run, a TIMA write no
longer removes the requested interrupt. -/
theorem c6_tima_reload_window (t : Timer) (intr : Interrupts) (v w : Nat)
    (hov : t.overflowed = true) (hprev : t.prevAndResult = false) :
    ((t.stepOne intr).1.tima = t.tma ∧
      (t.stepOne intr).1.overflowed = false ∧
      (t.stepOne intr).2.requested = intr.requested ||| 4) ∧
    ((t.write_register 0xFF05 v).overflowed = false ∧
      (t.write_register 0xFF05 v).tima = v ∧
      ((t.write_register 0xFF05 v).stepOne intr).1.tima = v ∧
      ((t.write_register 0xFF05 v).stepOne intr).2 = intr) ∧
    (((t.write_register 0xFF06 w).stepOne intr).1.tima = w ∧
      ((t.write_register 0xFF06 w).stepOne intr).2.requested = intr.requested ||| 4) ∧
    (((t.stepOne intr).1.write_register 0xFF05 v).tima = v ∧
      ((t.stepOne intr).2.requested = intr.requested ||| 4)) := by
  refine ⟨⟨?_, ?_, ?_⟩, ⟨?_, ?_, ?_, ?_⟩, ⟨?_, ?_⟩, ⟨?_, ?_⟩⟩ <;>
    simp [Timer.stepOne, Timer.write_register, Interrupts.request_interrupt,
      Interrupt.toBit, hov, hprev]

/-- A concrete timer state sitting inside the overflow window (TIMA has just
wrapped to zero with TMA = 0x1C). -/
def timerInWindow : Timer :=
  { tima := 0, tma := 0x1C, tac := 5, counter := 0x3FF1,
    overflowed := true, prevAndResult := false }

/-- Witness for C6 at a concrete overflow state. -/
theorem c6_tima_reload_window_witness :
    (timerInWindow.overflowed = true ∧ timerInWindow.prevAndResult = false) ∧
    ((timerInWindow.stepOne Interrupts.new).1.tima = 0x1C ∧
      (timerInWindow.write_register 0xFF05 0x0F).tima = 0x0F) := by
  have h := c6_tima_reload_window timerInWindow Interrupts.new 0x0F 0x2A rfl rfl
  exact ⟨⟨rfl, rfl⟩, h.1.1, h.2.1.2.1⟩

/-- The joypad (`Joypad` in `src/hardware/joypad.rs`). -/
structure Joypad where
  pressed : Nat
  button_group : Nat
deriving DecidableEq

/-- Rust `Joypad::new`. -/
def Joypad.new : Joypad := { pressed := 0xFF, button_group := 0x30 }

/-- Rust `Joypad::register_value`. -/
def Joypad.register_value (j : Joypad) : Nat :=
  match (j.button_group >>> 4) &&& 0x3 with
  | 0x1 => j.pressed &&& 0x0F
  | 0x2 => (j.pressed &&& 0xF0) >>> 4
  | 0x0 => (j.pressed &&& 0x0F) &&& ((j.pressed &&& 0xF0) >>> 4)
  | _ => 0x0F

/-- Rust `Joypad::read_register`. -/
def Joypad.read_register (j : Joypad) : Nat :=
  0xC0 ||| j.button_group ||| j.register_value

/-- Rust `Joypad::write_register`: only bits 4 and 5 are writeable. -/
def Joypad.write_register (j : Joypad) (value : Nat) : Joypad :=
  { j with button_group := value &&& 0x30 }

namespace PulseChannel

/-- Rust `PulseChannel` (channel 2) from `src/hardware/apu/pulse_channel.rs`. -/
structure State where
  nr21 : Nat
  nr22 : Nat
  nr23 : Nat
  nr24 : Nat
  frequency_timer : Nat
  duty_step : Nat
  volume : Nat
  length_timer : Nat
  envelope_timer : Nat
  enabled : Bool
deriving DecidableEq

/-- Rust `MAX_CHANNEL_TIMER_LENGTH` for channel 2. -/
def MAX_CHANNEL_TIMER_LENGTH : Nat := 64

/-- Rust `CHANNEL_TRIGGER_MASK`. -/
def CHANNEL_TRIGGER_MASK : Nat := 0x80

/-- Rust `TIMER_LENGTH_ENABLE_MASK`. -/
def TIMER_LENGTH_ENABLE_MASK : Nat := 0x40

/-- Rust `PulseChannel::new`. -/
def new : State :=
  { nr21 := 0, nr22 := 0, nr23 := 0, nr24 := 0, frequency_timer := 0,
    duty_step := 0, volume := 0, length_timer := 0, envelope_timer := 0,
    enabled := false }

/-- Rust `PulseChannel::is_dac_on`: bits 3-7 of NR22 not all zero. -/
def State.is_dac_on (c : State) : Bool := (c.nr22 >>> 3) != 0

/-- Rust `PulseChannel::get_period`. -/
def State.get_period (c : State) : Nat := ((c.nr24 &&& 0x07) <<< 8) ||| c.nr23

/-- Rust `PulseChannel::frequency_timer_reload`. -/
def State.frequency_timer_reload (c : State) : Nat := 2048 - c.get_period

/-- Rust `PulseChannel::reload_length_timer`. -/
def State.reload_length_timer (c : State) : State :=
  { c with length_timer := MAX_CHANNEL_TIMER_LENGTH - (c.nr21 &&& 0x3F) }

/-- Rust `PulseChannel::trigger`. -/
def State.trigger (c : State) : State :=
  let c := { c with enabled := c.is_dac_on }
  let c :=
    if c.length_timer = 0 then { c with length_timer := MAX_CHANNEL_TIMER_LENGTH } else c
  { c with
    frequency_timer := c.frequency_timer_reload * 4,
    envelope_timer := c.nr22 &&& 0x07,
    volume := c.nr22 >>> 4,
    duty_step := 0 }

/-- Rust `PulseChannel::step_length_timer`. -/
def State.step_length_timer (c : State) : State :=
  if !isFlagSet c.nr24 TIMER_LENGTH_ENABLE_MASK || c.length_timer = 0 then c
  else
    let c := { c with length_timer := c.length_timer - 1 }
    if c.length_timer = 0 then { c with enabled := false } else c

/-- Rust `PulseChannel::read_register`. -/
def State.read_register (c : State) (address : Nat) : Nat :=
  match address &&& 0xFF with
  | 0x16 => c.nr21 ||| 0x3F
  | 0x17 => c.nr22
  | 0x18 => 0xFF
  | 0x19 => c.nr24 ||| 0xBF
  | _ => 0

/-- Rust `PulseChannel::write_register`. -/
def State.write_register (c : State) (apu_enabled : Bool)
    (address value frame_step : Nat) : State :=
  let lower_byte := address &&& 0xFF
  if !apu_enabled && lower_byte ≠ 0x16 then c
  else if lower_byte = 0x16 then
    let c := { c with nr21 := if apu_enabled then value else value &&& 0x3F }
    c.reload_length_timer
  else if lower_byte = 0x17 then
    let c := { c with nr22 := value }
    if !c.is_dac_on then { c with enabled := false } else c
  else if lower_byte = 0x18 then { c with nr23 := value }
  else if lower_byte = 0x19 then
    let prev_length_enabled := isFlagSet c.nr24 TIMER_LENGTH_ENABLE_MASK
    let curr_length_enabled := isFlagSet value TIMER_LENGTH_ENABLE_MASK
    let should_trigger := isFlagSet value CHANNEL_TRIGGER_MASK
    let c := { c with nr24 := value }
    let will_clock_length := (frame_step &&& 1) == 0
    let c :=
      if !prev_length_enabled && curr_length_enabled && !will_clock_length &&
          c.length_timer > 0 then
        let c := { c with length_timer := c.length_timer - 1 }
        if c.length_timer = 0 && !should_trigger then { c with enabled := false } else c
      else c
    let old_length := c.length_timer
    let c := if should_trigger then c.trigger else c
    let timer_reloaded := old_length = 0 && c.length_timer = MAX_CHANNEL_TIMER_LENGTH
    if curr_length_enabled && timer_reloaded && !will_clock_length then
      { c with length_timer := c.length_timer - 1 }
    else c
  else c

/-- Rust `PulseChannel::clear_registers`. -/
def State.clear_registers (c : State) : State :=
  { c with nr21 := 0, nr22 := 0, nr23 := 0, nr24 := 0, enabled := false }

end PulseChannel

namespace WaveChannel

/-- Rust `WaveChannel` (channel 3) from `src/hardware/apu/wave_channel.rs`. -/
structure State where
  nr30 : Nat
  nr31 : Nat
  nr32 : Nat
  nr33 : Nat
  nr34 : Nat
  frequency_timer : Nat
  length_timer : Nat
  enabled : Bool
  wave_ram : Nat → Nat
  wave_ram_index : Nat

/-- Rust `MAX_CHANNEL_TIMER_LENGTH` for channel 3. -/
def MAX_CHANNEL_TIMER_LENGTH : Nat := 256

/-- Rust `CHANNEL_TRIGGER_MASK`. -/
def CHANNEL_TRIGGER_MASK : Nat := 0x80

/-- Rust `TIMER_LENGTH_ENABLE_MASK`. -/
def TIMER_LENGTH_ENABLE_MASK : Nat := 0x40

/-- Rust `WaveChannel::new`. -/
def new : State :=
  { nr30 := 0, nr31 := 0, nr32 := 0, nr33 := 0, nr34 := 0,
    frequency_timer := 0, length_timer := 0, enabled := false,
    wave_ram := fun _ => 0, wave_ram_index := 0 }

/-- Rust `WaveChannel::is_dac_on`: bit 7 of NR30. -/
def State.is_dac_on (c : State) : Bool := isFlagSet c.nr30 0x80

/-- Rust `WaveChannel::get_period`. -/
def State.get_period (c : State) : Nat := ((c.nr34 &&& 0x07) <<< 8) ||| c.nr33

/-- Rust `WaveChannel::frequency_timer_reload`. -/
def State.frequency_timer_reload (c : State) : Nat := 2048 - c.get_period

/-- Rust `WaveChannel::reload_length_timer`. -/
def State.reload_length_timer (c : State) : State :=
  { c with length_timer := MAX_CHANNEL_TIMER_LENGTH - c.nr31 }

/-- Rust `WaveChannel::trigger`. -/
def State.trigger (c : State) : State :=
  let c := { c with enabled := c.is_dac_on }
  let c :=
    if c.length_timer = 0 then { c with length_timer := MAX_CHANNEL_TIMER_LENGTH } else c
  { c with frequency_timer := c.frequency_timer_reload * 2, wave_ram_index := 0 }

/-- Rust `WaveChannel::step_length_timer`. -/
def State.step_length_timer (c : State) : State :=
  if !isFlagSet c.nr34 TIMER_LENGTH_ENABLE_MASK || c.length_timer = 0 then c
  else
    let c := { c with length_timer := c.length_timer - 1 }
    if c.length_timer = 0 then { c with enabled := false } else c

/-- Rust `WaveChannel::read_register`. -/
def State.read_register (c : State) (address : Nat) : Nat :=
  match address &&& 0xFF with
  | 0x1A => c.nr30 ||| 0x7F
  | 0x1B => 0xFF
  | 0x1C => c.nr32 ||| 0x9F
  | 0x1D => 0xFF
  | 0x1E => c.nr34 ||| 0xBF
  | _ => 0

/-- Rust `WaveChannel::write_register`. -/
def State.write_register (c : State) (apu_enabled : Bool)
    (address value frame_step : Nat) : State :=
  let lower_byte := address &&& 0xFF
  if !apu_enabled && lower_byte ≠ 0x1B then c
  else if lower_byte = 0x1A then
    let c := { c with nr30 := value }
    if !c.is_dac_on then { c with enabled := false } else c
  else if lower_byte = 0x1B then
    let c := { c with nr31 := value }
    c.reload_length_timer
  else if lower_byte = 0x1C then { c with nr32 := value }
  else if lower_byte = 0x1D then { c with nr33 := value }
  else if lower_byte = 0x1E then
    let prev_length_enabled := isFlagSet c.nr34 TIMER_LENGTH_ENABLE_MASK
    let curr_length_enabled := isFlagSet value TIMER_LENGTH_ENABLE_MASK
    let should_trigger := isFlagSet value CHANNEL_TRIGGER_MASK
    let c := { c with nr34 := value }
    let will_clock_length := (frame_step &&& 1) == 0
    let c :=
      if !prev_length_enabled && curr_length_enabled && !will_clock_length &&
          c.length_timer > 0 then
        let c := { c with length_timer := c.length_timer - 1 }
        if c.length_timer = 0 && !should_trigger then { c with enabled := false } else c
      else c
    let old_length := c.length_timer
    let c := if should_trigger then c.trigger else c
    let timer_reloaded := old_length = 0 && c.length_timer = MAX_CHANNEL_TIMER_LENGTH
    if curr_length_enabled && timer_reloaded && !will_clock_length then
      { c with length_timer := c.length_timer - 1 }
    else c
  else c

/-- Rust `WaveChannel::clear_registers`. -/
def State.clear_registers (c : State) : State :=
  { c with nr30 := 0, nr31 := 0, nr32 := 0, nr33 := 0, nr34 := 0, enabled := false }

/-- Rust `WaveChannel::write_wave_ram`. -/
def State.write_wave_ram (c : State) (address value : Nat) : State :=
  { c with wave_ram := upd c.wave_ram (address - 0xFF30) value }

/-- Rust `WaveChannel::read_wave_ram`. -/
def State.read_wave_ram (c : State) (address : Nat) : Nat :=
  if c.enabled then 0xFF else c.wave_ram (address - 0xFF30)

end WaveChannel

namespace PulseSweepChannel

/-- Rust `PulseSweepChannel` (channel 1) from `src/hardware/apu/pulse_sweep_channel.rs`. -/
structure State where
  nr10 : Nat
  nr11 : Nat
  nr12 : Nat
  nr13 : Nat
  nr14 : Nat
  frequency_timer : Nat
  duty_step : Nat
  volume : Nat
  length_timer : Nat
  envelope_timer : Nat
  enabled : Bool
  shadow_frequency : Nat
  sweep_timer : Nat
  sweep_enabled : Bool
  had_negative_sweep_calc : Bool
deriving DecidableEq

/-- Rust `MAX_CHANNEL_TIMER_LENGTH` for channel 1. -/
def MAX_CHANNEL_TIMER_LENGTH : Nat := 64

/-- Rust `CHANNEL_TRIGGER_MASK`. -/
def CHANNEL_TRIGGER_MASK : Nat := 0x80

/-- Rust `TIMER_LENGTH_ENABLE_MASK`. -/
def TIMER_LENGTH_ENABLE_MASK : Nat := 0x40

/-- Rust `SWEEP_DIRECTION_MASK`. -/
def SWEEP_DIRECTION_MASK : Nat := 0x08

/-- Rust `PulseSweepChannel::new`. -/
def new : State :=
  { nr10 := 0, nr11 := 0, nr12 := 0, nr13 := 0, nr14 := 0, frequency_timer := 0,
    duty_step := 0, volume := 0, length_timer := 0, envelope_timer := 0,
    enabled := false, shadow_frequency := 0, sweep_timer := 0,
    sweep_enabled := false, had_negative_sweep_calc := false }

/-- Rust `PulseSweepChannel::is_dac_on`. -/
def State.is_dac_on (c : State) : Bool := (c.nr12 >>> 3) != 0

/-- Rust `PulseSweepChannel::get_period`. -/
def State.get_period (c : State) : Nat := ((c.nr14 &&& 0x07) <<< 8) ||| c.nr13

/-- Rust `PulseSweepChannel::frequency_timer_reload`. -/
def State.frequency_timer_reload (c : State) : Nat := 2048 - c.get_period

/-- Rust `PulseSweepChannel::reload_length_timer`. -/
def State.reload_length_timer (c : State) : State :=
  { c with length_timer := MAX_CHANNEL_TIMER_LENGTH - (c.nr11 &&& 0x3F) }

/-- Rust `PulseSweepChannel::calculate_next_sweep_frequency`; returns the computed
frequency together with the updated channel (the negative-direction branch
records `had_negative_sweep_calc`). -/
def State.calculate_next_sweep_frequency (c : State) : Nat × State :=
  let sweep_shift := c.nr10 &&& 0x07
  if isFlagSet c.nr10 SWEEP_DIRECTION_MASK then
    (c.shadow_frequency - (c.shadow_frequency >>> sweep_shift),
      { c with had_negative_sweep_calc := true })
  else
    (c.shadow_frequency + (c.shadow_frequency >>> sweep_shift), c)

/-- Rust `PulseSweepChannel::trigger`. The Rust body is a sequence of field
assignments whose right-hand sides read only the registers `nr10`-`nr14` (which
trigger never writes) and the original `length_timer`, plus a final
`calculate_next_sweep_frequency` call on the updated state whose result depends
only on `nr10` and the freshly set `shadow_frequency = get_period`; the
sequence is therefore written as one simultaneous update. -/
def State.trigger (c : State) : State :=
  let sweep_pace := (c.nr10 >>> 4) &&& 0x07
  let sweep_step := c.nr10 &&& 0x07
  let shadow := c.get_period
  let negative_dir := isFlagSet c.nr10 SWEEP_DIRECTION_MASK
  let new_freq :=
    if negative_dir then shadow - (shadow >>> sweep_step)
    else shadow + (shadow >>> sweep_step)
  { c with
    enabled := if sweep_step ≠ 0 ∧ new_freq > 0x07FF then false else c.is_dac_on,
    length_timer := if c.length_timer = 0 then MAX_CHANNEL_TIMER_LENGTH else c.length_timer,
    frequency_timer := c.frequency_timer_reload * 4,
    envelope_timer := c.nr12 &&& 0x07,
    volume := c.nr12 >>> 4,
    duty_step := 0,
    shadow_frequency := shadow,
    sweep_timer := if sweep_pace = 0 then 8 else sweep_pace,
    sweep_enabled := sweep_pace ≠ 0 || sweep_step ≠ 0,
    had_negative_sweep_calc := if sweep_step ≠ 0 then negative_dir else false }

/-- Rust `PulseSweepChannel::step_length_timer`. -/
def State.step_length_timer (c : State) : State :=
  if !isFlagSet c.nr14 TIMER_LENGTH_ENABLE_MASK || c.length_timer = 0 then c
  else
    let c := { c with length_timer := c.length_timer - 1 }
    if c.length_timer = 0 then { c with enabled := false } else c

/-- Rust `PulseSweepChannel::read_register`. -/
def State.read_register (c : State) (address : Nat) : Nat :=
  match address &&& 0xFF with
  | 0x10 => c.nr10 ||| 0x80
  | 0x11 => c.nr11 ||| 0x3F
  | 0x12 => c.nr12
  | 0x13 => 0xFF
  | 0x14 => c.nr14 ||| 0xBF
  | _ => 0

/-- Rust `PulseSweepChannel::write_register`. -/
def State.write_register (c : State) (apu_enabled : Bool)
    (address value frame_step : Nat) : State :=
  let lower_byte := address &&& 0xFF
  if !apu_enabled && lower_byte ≠ 0x11 then c
  else if lower_byte = 0x10 then
    let c :=
      if c.had_negative_sweep_calc && isFlagSet c.nr10 SWEEP_DIRECTION_MASK &&
          !isFlagSet value SWEEP_DIRECTION_MASK then
        { c with enabled := false }
      else c
    { c with nr10 := value }
  else if lower_byte = 0x11 then
    let c := { c with nr11 := if apu_enabled then value else value &&& 0x3F }
    c.reload_length_timer
  else if lower_byte = 0x12 then
    let c := { c with nr12 := value }
    if !c.is_dac_on then { c with enabled := false } else c
  else if lower_byte = 0x13 then { c with nr13 := value }
  else if lower_byte = 0x14 then
    let prev_length_enabled := isFlagSet c.nr14 TIMER_LENGTH_ENABLE_MASK
    let curr_length_enabled := isFlagSet value TIMER_LENGTH_ENABLE_MASK
    let should_trigger := isFlagSet value CHANNEL_TRIGGER_MASK
    let c := { c with nr14 := value }
    let will_clock_length := (frame_step &&& 1) == 0
    let c :=
      if !prev_length_enabled && curr_length_enabled && !will_clock_length &&
          c.length_timer > 0 then
        let c := { c with length_timer := c.length_timer - 1 }
        if c.length_timer = 0 && !should_trigger then { c with enabled := false } else c
      else c
    let old_length := c.length_timer
    let c := if should_trigger then c.trigger else c
    let timer_reloaded := old_length = 0 && c.length_timer = MAX_CHANNEL_TIMER_LENGTH
    if curr_length_enabled && timer_reloaded && !will_clock_length then
      { c with length_timer := c.length_timer - 1 }
    else c
  else c

/-- Rust `PulseSweepChannel::clear_registers`. -/
def State.clear_registers (c : State) : State :=
  { c with nr10 := 0, nr11 := 0, nr12 := 0, nr13 := 0, nr14 := 0, enabled := false }

end PulseSweepChannel

namespace NoiseChannel

/-- Rust `NoiseChannel` (channel 4) from `src/hardware/apu/noise_channel.rs`. -/
structure State where
  nr41 : Nat
  nr42 : Nat
  nr43 : Nat
  nr44 : Nat
  frequency_timer : Nat
  volume : Nat
  envelope_timer : Nat
  length_timer : Nat
  lsfr : Nat
  enabled : Bool
deriving DecidableEq

/-- Rust `MAX_CHANNEL_TIMER_LENGTH` for channel 4. -/
def MAX_CHANNEL_TIMER_LENGTH : Nat := 64

/-- Rust `CHANNEL_TRIGGER_MASK`. -/
def CHANNEL_TRIGGER_MASK : Nat := 0x80

/-- Rust `TIMER_LENGTH_ENABLE_MASK`. -/
def TIMER_LENGTH_ENABLE_MASK : Nat := 0x40

/-- Rust `NoiseChannel::new`. -/
def new : State :=
  { nr41 := 0, nr42 := 0, nr43 := 0, nr44 := 0, frequency_timer := 0,
    volume := 0, envelope_timer := 0, length_timer := 0, lsfr := 0,
    enabled := false }

/-- Rust `NoiseChannel::is_dac_on`. -/
def State.is_dac_on (c : State) : Bool := (c.nr42 >>> 3) != 0

/-- Rust `NoiseChannel::get_frequency`. -/
def State.get_frequency (c : State) : Nat :=
  let clock_shift := c.nr43 >>> 4
  let clock_divider :=
    match c.nr43 &&& 0x07 with
    | 0 => 8 | 1 => 16 | 2 => 32 | 3 => 48 | 4 => 64 | 5 => 80 | 6 => 96 | _ => 112
  clock_divider <<< clock_shift

/-- Rust `NoiseChannel::reload_length_timer`. -/
def State.reload_length_timer (c : State) : State :=
  { c with length_timer := MAX_CHANNEL_TIMER_LENGTH - (c.nr41 &&& 0x3F) }

/-- Rust `NoiseChannel::trigger`. -/
def State.trigger (c : State) : State :=
  let c := { c with enabled := c.is_dac_on }
  let c :=
    if c.length_timer = 0 then { c with length_timer := MAX_CHANNEL_TIMER_LENGTH } else c
  { c with
    frequency_timer := c.get_frequency,
    envelope_timer := c.nr42 &&& 0x07,
    volume := (c.nr42 >>> 4) &&& 0x0F,
    lsfr := 0x7FFF }

/-- Rust `NoiseChannel::step_length_timer`. -/
def State.step_length_timer (c : State) : State :=
  if !isFlagSet c.nr44 TIMER_LENGTH_ENABLE_MASK || c.length_timer = 0 then c
  else
    let c := { c with length_timer := c.length_timer - 1 }
    if c.length_timer = 0 then { c with enabled := false } else c

/-- Rust `NoiseChannel::read_register`. -/
def State.read_register (c : State) (address : Nat) : Nat :=
  match address &&& 0xFF with
  | 0x20 => 0xFF
  | 0x21 => c.nr42
  | 0x22 => c.nr43
  | 0x23 => c.nr44 ||| 0xBF
  | _ => 0

/-- Rust `NoiseChannel::write_register` (as defined in `noise_channel.rs`, which
takes no APU-enabled gate; `is_rising_edge!(old, new, mask)` unfolds to the
flag being clear in `old` and set in `new`). -/
def State.write_register (c : State) (address value frame_step : Nat) : State :=
  let lower_byte := address &&& 0xFF
  if lower_byte = 0x20 then
    let c := { c with nr41 := value }
    c.reload_length_timer
  else if lower_byte = 0x21 then
    let c := { c with nr42 := value }
    if !c.is_dac_on then { c with enabled := false } else c
  else if lower_byte = 0x22 then { c with nr43 := value }
  else if lower_byte = 0x23 then
    let old_value := c.nr44
    let curr_length_enabled := isFlagSet value TIMER_LENGTH_ENABLE_MASK
    let should_trigger := isFlagSet value CHANNEL_TRIGGER_MASK
    let c := { c with nr44 := value }
    let will_clock_length := (frame_step &&& 1) == 0
    let c :=
      if !isFlagSet old_value TIMER_LENGTH_ENABLE_MASK &&
          isFlagSet value TIMER_LENGTH_ENABLE_MASK && !will_clock_length &&
          c.length_timer > 0 then
        let c := { c with length_timer := c.length_timer - 1 }
        if c.length_timer = 0 && !should_trigger then { c with enabled := false } else c
      else c
    let old_length := c.length_timer
    let c := if should_trigger then c.trigger else c
    let timer_reloaded := old_length = 0 && c.length_timer = MAX_CHANNEL_TIMER_LENGTH
    if curr_length_enabled && timer_reloaded && !will_clock_length then
      { c with length_timer := c.length_timer - 1 }
    else c
  else c

/-- Rust `NoiseChannel::clear_registers`. -/
def State.clear_registers (c : State) : State :=
  { c with nr41 := 0, nr42 := 0, nr43 := 0, nr44 := 0, enabled := false }

end NoiseChannel

/-- The APU (`Apu` in `src/hardware/apu.rs`); the host-side master volume and
the audio sample FIFO live outside the register file and are not part of the
memory-bus behaviour embedded here. -/
structure Apu where
  channel1 : PulseSweepChannel.State
  channel2 : PulseChannel.State
  channel3 : WaveChannel.State
  channel4 : NoiseChannel.State
  nr50 : Nat
  nr51 : Nat
  nr52 : Nat
  frame_sequencer_cycles : Nat
  frame_sequencer_step : Nat

/-- Rust `APU_ENABLE_MASK`. -/
def APU_ENABLE_MASK : Nat := 0x80

/-- Rust `Apu::new`. -/
def Apu.new : Apu :=
  { channel1 := PulseSweepChannel.new, channel2 := PulseChannel.new,
    channel3 := WaveChannel.new, channel4 := NoiseChannel.new,
    nr50 := 0, nr51 := 0, nr52 := 0,
    frame_sequencer_cycles := 0, frame_sequencer_step := 0 }

/-- Rust `Apu::is_enabled`. -/
def Apu.is_enabled (a : Apu) : Bool := isFlagSet a.nr52 APU_ENABLE_MASK

/-- Rust `Apu::enabled_channels`. -/
def Apu.enabled_channels (a : Apu) : Nat :=
  (if a.channel1.enabled then 1 else 0) |||
  (if a.channel2.enabled then 2 else 0) |||
  (if a.channel3.enabled then 4 else 0) |||
  (if a.channel4.enabled then 8 else 0)

/-- Rust `Apu::read_register`. -/
def Apu.read_register (a : Apu) (address : Nat) : Nat :=
  if 0xFF10 ≤ address ∧ address < 0xFF15 then a.channel1.read_register address
  else if address = 0xFF15 then 0xFF
  else if 0xFF16 ≤ address ∧ address < 0xFF1A then a.channel2.read_register address
  else if 0xFF1A ≤ address ∧ address < 0xFF1F then a.channel3.read_register address
  else if address = 0xFF1F then 0xFF
  else if 0xFF20 ≤ address ∧ address < 0xFF24 then a.channel4.read_register address
  else if address = 0xFF24 then a.nr50
  else if address = 0xFF25 then a.nr51
  else if address = 0xFF26 then a.nr52 ||| a.enabled_channels ||| 0x70
  else if 0xFF30 ≤ address ∧ address < 0xFF40 then a.channel3.read_wave_ram address
  else 0

/-- Rust `Apu::write_register`. -/
def Apu.write_register (a : Apu) (address value : Nat) : Apu :=
  let apu_enabled := a.is_enabled
  if 0xFF10 ≤ address ∧ address < 0xFF15 then
    { a with channel1 :=
        a.channel1.write_register apu_enabled address value a.frame_sequencer_step }
  else if address = 0xFF15 then a
  else if 0xFF16 ≤ address ∧ address < 0xFF1A then
    { a with channel2 :=
        a.channel2.write_register apu_enabled address value a.frame_sequencer_step }
  else if 0xFF1A ≤ address ∧ address < 0xFF1F then
    { a with channel3 :=
        a.channel3.write_register apu_enabled address value a.frame_sequencer_step }
  else if address = 0xFF1F then a
  else if 0xFF20 ≤ address ∧ address < 0xFF24 then
    { a with channel4 :=
        a.channel4.write_register address value a.frame_sequencer_step }
  else if address = 0xFF24 then
    if apu_enabled then { a with nr50 := value } else a
  else if address = 0xFF25 then
    if apu_enabled then { a with nr51 := value } else a
  else if address = 0xFF26 then
    let turning_off := apu_enabled && !isFlagSet value APU_ENABLE_MASK
    let turning_on := !apu_enabled && isFlagSet value APU_ENABLE_MASK
    let a :=
      if turning_off then
        { a with
          channel1 := a.channel1.clear_registers,
          channel2 := a.channel2.clear_registers,
          channel3 := a.channel3.clear_registers,
          channel4 := a.channel4.clear_registers,
          nr50 := 0,
          nr51 := 0 }
      else a
    let a := if turning_on then { a with frame_sequencer_step := 0 } else a
    { a with nr52 := value &&& 0x80 }
  else if 0xFF30 ≤ address ∧ address < 0xFF40 then
    { a with channel3 := a.channel3.write_wave_ram address value }
  else a

/-- The PPU modes (`PpuMode` in `src/hardware/ppu.rs`). -/
inductive PpuMode
  | hBlank
  | vBlank
  | oamScan
  | pixelTransfer
deriving DecidableEq

/-- The mode's two-bit encoding in the status register. -/
def PpuMode.toBits : PpuMode → Nat
  | .hBlank => 0
  | .vBlank => 1
  | .oamScan => 2
  | .pixelTransfer => 3

/-- The state of a DMA transfer, as matched by `Hardware::step_dma_transfer`
in `src/hardware.rs` (`Requested`, `Starting { ticks }`,
`Transferring { ticks }`). -/
inductive DmaProgress
  | requested
  | starting (ticks : Nat)
  | transferring (ticks : Nat)
deriving DecidableEq

/-- The PPU (`Ppu` in `src/hardware/ppu.rs`); the scanline rasterizer and the
per-dot mode state machine are not needed by the claims and are omitted. -/
structure Ppu where
  memory : Nat → Nat
  oam : Nat → Nat
  lcdc : Nat
  stat : Nat
  scy : Nat
  scx : Nat
  ly : Nat
  wly : Nat
  lyc : Nat
  bgp : Nat
  obp0 : Nat
  obp1 : Nat
  wy : Nat
  wx : Nat
  counter : Nat
  dma : Nat
  dma_transfer : Option DmaProgress
  restarted_dma_transfer : Option (Nat × Nat)

/-- Rust `Ppu::new` (the default mode is OAM scan). -/
def Ppu.new : Ppu :=
  { memory := fun _ => 0, oam := fun _ => 0, lcdc := 0,
    stat := PpuMode.oamScan.toBits, scy := 0, scx := 0, ly := 0, wly := 0,
    lyc := 0, bgp := 0, obp0 := 0, obp1 := 0, wy := 0, wx := 0, counter := 0,
    dma := 0, dma_transfer := none, restarted_dma_transfer := none }

/-- Rust `Ppu::current_mode` (`stat & 0x03`, always decodable). -/
def Ppu.current_mode (p : Ppu) : PpuMode :=
  match p.stat &&& 0x03 with
  | 0 => .hBlank
  | 1 => .vBlank
  | 2 => .oamScan
  | _ => .pixelTransfer

/-- Rust `Ppu::display_enabled` (bit 7 of LCDC). -/
def Ppu.display_enabled (p : Ppu) : Bool := isFlagSet p.lcdc 0x80

/-- Rust `Ppu::read_ram`. -/
def Ppu.read_ram (p : Ppu) (address : Nat) : Nat := p.memory (address - 0x8000)

/-- Rust `Ppu::write_ram`. -/
def Ppu.write_ram (p : Ppu) (address value : Nat) : Ppu :=
  { p with memory := upd p.memory (address - 0x8000) value }

/-- Rust `Ppu::read_oam`. -/
def Ppu.read_oam (p : Ppu) (address : Nat) : Nat := p.oam (address - 0xFE00)

/-- Rust `Ppu::write_oam`. -/
def Ppu.write_oam (p : Ppu) (address value : Nat) : Ppu :=
  { p with oam := upd p.oam (address - 0xFE00) value }

/-- Rust `Ppu::read_register`. -/
def Ppu.read_register (p : Ppu) (address : Nat) : Nat :=
  if address = 0xFF40 then p.lcdc
  else if address = 0xFF41 then p.stat
  else if address = 0xFF42 then p.scy
  else if address = 0xFF43 then p.scx
  else if address = 0xFF44 then p.ly
  else if address = 0xFF45 then p.lyc
  else if address = 0xFF46 then p.dma
  else if address = 0xFF47 then p.bgp
  else if address = 0xFF48 then p.obp0
  else if address = 0xFF49 then p.obp1
  else if address = 0xFF4A then p.wy
  else if address = 0xFF4B then p.wx
  else 0

/-- Rust `Ppu::write_register`; a write to 0xFF46 records the DMA source byte and
requests a (possibly restarted) DMA transfer. -/
def Ppu.write_register (p : Ppu) (address value : Nat) : Ppu :=
  if address = 0xFF40 then
    let p :=
      if isFlagSet p.lcdc 0x80 && !isFlagSet value 0x80 then
        { p with ly := 0, wly := 0, stat := p.stat &&& (0x04 ^^^ 0xFF) }
      else p
    { p with lcdc := value }
  else if address = 0xFF41 then
    { p with stat := (value &&& 0x7C) ||| (p.current_mode).toBits }
  else if address = 0xFF42 then { p with scy := value }
  else if address = 0xFF43 then { p with scx := value }
  else if address = 0xFF44 then p
  else if address = 0xFF45 then { p with lyc := value }
  else if address = 0xFF46 then
    let p := { p with dma := value }
    if p.dma_transfer.isSome then
      { p with restarted_dma_transfer := some (p.dma, 0) }
    else
      { p with dma_transfer := some .requested }
  else if address = 0xFF47 then { p with bgp := value }
  else if address = 0xFF48 then { p with obp0 := value }
  else if address = 0xFF49 then { p with obp1 := value }
  else if address = 0xFF4A then { p with wy := value }
  else if address = 0xFF4B then { p with wx := value }
  else p

/-- Rust `RomOnly` from `src/hardware/cartridge.rs`. -/
structure RomOnly where
  rom : List Nat

/-- Rust `RomOnly::read_rom`: `self.rom.get(address as usize).copied().unwrap()` —
the `unwrap` panics on an out-of-range address, modelled by `Option`. -/
def RomOnly.read_rom (c : RomOnly) (address : Nat) : Option Nat :=
  c.rom.get? address

/-- The MBC1 banking modes. -/
inductive BankingMode
  | simple
  | advanced
deriving DecidableEq

/-- Rust `Mbc1` from `src/hardware/cartridge.rs`; its fixed 32 KiB RAM vector is a
function store. -/
structure Mbc1 where
  rom : List Nat
  ram : Nat → Nat
  rom_bank : Nat
  ram_bank : Nat
  ram_enabled : Bool
  banking_mode : BankingMode

/-- Rust `Mbc1::read_rom` (total: out-of-range reads yield 0xFF via `unwrap_or`). -/
def Mbc1.read_rom (c : Mbc1) (address : Nat) : Nat :=
  let bank := if address < 0x4000 then 0 else c.rom_bank
  let offset := address &&& (0x4000 - 1)
  (c.rom.get? (bank * 0x4000 + offset)).getD 0xFF

/-- Rust `Mbc1::write_rom` (control-register writes). -/
def Mbc1.write_rom (c : Mbc1) (address value : Nat) : Mbc1 :=
  if address < 0x2000 then
    { c with ram_enabled := value &&& 0x0F == 0x0A }
  else if address < 0x4000 then
    let bank := max (value &&& 0x1F) 1
    { c with rom_bank := (c.rom_bank &&& 0x60) ||| bank }
  else if address < 0x6000 then
    let bits := value &&& 0x03
    match c.banking_mode with
    | .simple => { c with rom_bank := (c.rom_bank &&& 0x1F) ||| (bits <<< 5) }
    | .advanced => { c with ram_bank := bits }
  else if address < 0x8000 then
    { c with banking_mode := if value &&& 0x01 = 0 then .advanced else .simple }
  else c

/-- Rust `Mbc1::read_ram` (total: disabled or out-of-range reads yield 0xFF). -/
def Mbc1.read_ram (c : Mbc1) (address : Nat) : Nat :=
  if c.ram_enabled then
    let offset := address &&& (0x2000 - 1)
    let idx := c.ram_bank * 0x2000 + offset
    if idx < 0x8000 then c.ram idx else 0xFF
  else 0xFF

/-- Rust `Mbc1::write_ram`. -/
def Mbc1.write_ram (c : Mbc1) (address value : Nat) : Mbc1 :=
  if !c.ram_enabled then c
  else
    let offset := address &&& (0x2000 - 1)
    let idx := c.ram_bank * 0x2000 + offset
    if idx < 0x8000 then { c with ram := upd c.ram idx value } else c

/-- Rust `Cartridge` from `src/hardware/cartridge.rs`. -/
inductive Cartridge
  | romOnly (c : RomOnly)
  | mbc1 (c : Mbc1)

/-- Rust `Cartridge::read_rom`; only the ROM-only variant can panic. -/
def Cartridge.read_rom (c : Cartridge) (address : Nat) : Option Nat :=
  match c with
  | .romOnly c => c.read_rom address
  | .mbc1 c => some (c.read_rom address)

/-- Rust `Cartridge::write_rom`. -/
def Cartridge.write_rom (c : Cartridge) (address value : Nat) : Cartridge :=
  match c with
  | .romOnly c => .romOnly c
  | .mbc1 c => .mbc1 (c.write_rom address value)

/-- Rust `Cartridge::read_ram`. -/
def Cartridge.read_ram (c : Cartridge) (address : Nat) : Nat :=
  match c with
  | .romOnly _ => 0xFF
  | .mbc1 c => c.read_ram address

/-- Rust `Cartridge::write_ram`. -/
def Cartridge.write_ram (c : Cartridge) (address value : Nat) : Cartridge :=
  match c with
  | .romOnly c => .romOnly c
  | .mbc1 c => .mbc1 (c.write_ram address value)

/-- The hardware aggregate (`Hardware` in `src/hardware.rs`). -/
structure Hardware where
  memory : Nat → Nat
  high_ram : Nat → Nat
  joypad : Joypad
  cartridge : Cartridge
  timer : Timer
  ppu : Ppu
  apu : Apu
  interrupts : Interrupts

/-- Rust `Hardware::read_io_register`. -/
def Hardware.read_io_register (hw : Hardware) (address : Nat) : Nat :=
  if address = 0xFF00 then hw.joypad.read_register
  else if address = 0xFF01 ∨ address = 0xFF02 then 0x0
  else if 0xFF04 ≤ address ∧ address < 0xFF08 then hw.timer.read_register address
  else if (0xFF10 ≤ address ∧ address < 0xFF27) ∨ (0xFF30 ≤ address ∧ address < 0xFF40) then
    hw.apu.read_register address
  else if 0xFF40 ≤ address ∧ address < 0xFF4C then hw.ppu.read_register address
  else if address = 0xFF0F then hw.interrupts.requested_bitfield
  else 0xFF

/-- Rust `Hardware::read_byte`; `Option` models the panic that the ROM-only
cartridge read can raise. -/
def Hardware.read_byte (hw : Hardware) (address : Nat) : Option Nat :=
  if address < 0x4000 then hw.cartridge.read_rom address
  else if address < 0x8000 then hw.cartridge.read_rom address
  else if address < 0xA000 then
    if !hw.ppu.display_enabled || !(hw.ppu.current_mode == PpuMode.pixelTransfer) then
      some (hw.ppu.read_ram address)
    else some 0xFF
  else if address < 0xC000 then some (hw.cartridge.read_ram address)
  else if address < 0xE000 then some (hw.memory (address - 0xC000))
  else if address < 0xFE00 then some (hw.memory (address - 0xE000))
  else if address < 0xFEA0 then
    if !hw.ppu.display_enabled ||
        !(hw.ppu.current_mode == PpuMode.oamScan ||
          hw.ppu.current_mode == PpuMode.pixelTransfer) then
      some (hw.ppu.read_oam address)
    else some 0xFF
  else if address < 0xFF00 then some 0x00
  else if address < 0xFF80 then some (hw.read_io_register address)
  else if address < 0xFFFF then some (hw.high_ram (address - 0xFF80))
  else some hw.interrupts.enabled_bitfield

/-- Rust `Hardware::write_io_register`. -/
def Hardware.write_io_register (hw : Hardware) (address value : Nat) : Hardware :=
  if address = 0xFF00 then { hw with joypad := hw.joypad.write_register value }
  else if address = 0xFF01 ∨ address = 0xFF02 then hw
  else if 0xFF04 ≤ address ∧ address < 0xFF08 then
    { hw with timer := hw.timer.write_register address value }
  else if (0xFF10 ≤ address ∧ address < 0xFF27) ∨ (0xFF30 ≤ address ∧ address < 0xFF40) then
    { hw with apu := hw.apu.write_register address value }
  else if 0xFF40 ≤ address ∧ address < 0xFF4C then
    { hw with ppu := hw.ppu.write_register address value }
  else if address = 0xFF0F then
    { hw with interrupts := hw.interrupts.set_requested value }
  else hw

/-- Rust `Hardware::write_byte`. -/
def Hardware.write_byte (hw : Hardware) (address value : Nat) : Hardware :=
  if address < 0x4000 then { hw with cartridge := hw.cartridge.write_rom address value }
  else if address < 0x8000 then { hw with cartridge := hw.cartridge.write_rom address value }
  else if address < 0xA000 then
    if !hw.ppu.display_enabled || !(hw.ppu.current_mode == PpuMode.pixelTransfer) then
      { hw with ppu := hw.ppu.write_ram address value }
    else hw
  else if address < 0xC000 then { hw with cartridge := hw.cartridge.write_ram address value }
  else if address < 0xE000 then { hw with memory := upd hw.memory (address - 0xC000) value }
  else if address < 0xFE00 then { hw with memory := upd hw.memory (address - 0xE000) value }
  else if address < 0xFEA0 then
    if !hw.ppu.display_enabled ||
        !(hw.ppu.current_mode == PpuMode.oamScan ||
          hw.ppu.current_mode == PpuMode.pixelTransfer) then
      { hw with ppu := hw.ppu.write_oam address value }
    else hw
  else if address < 0xFF00 then hw
  else if address < 0xFF80 then hw.write_io_register address value
  else if address < 0xFFFF then { hw with high_ram := upd hw.high_ram (address - 0xFF80) value }
  else { hw with interrupts := hw.interrupts.set_enabled value }

/-- Rust `Hardware::step_dma_transfer` (one T-cycle); the bus read inside the
transferring phase can panic for a ROM-only cartridge, hence `Option`. -/
def Hardware.step_dma_transfer (hw : Hardware) : Option Hardware :=
  match hw.ppu.dma_transfer with
  | some .requested =>
      some { hw with ppu := { hw.ppu with dma_transfer := some (.starting 0) } }
  | some (.starting ticks) =>
      let new_ticks := ticks + 1
      if new_ticks = 4 then
        some { hw with ppu := { hw.ppu with dma_transfer := some (.transferring 0) } }
      else
        some { hw with ppu := { hw.ppu with dma_transfer := some (.starting new_ticks) } }
  | some (.transferring ticks) =>
      let new_ticks := ticks + 1
      let afterDataMove : Option Hardware :=
        if new_ticks % 4 = 0 then
          let starting_address := hw.ppu.dma <<< 8
          let index := ticks / 4
          (hw.read_byte (starting_address + index)).map fun src_byte =>
            { hw with ppu := hw.ppu.write_oam (0xFE00 + index) src_byte }
        else some hw
      afterDataMove.map fun hw =>
        if new_ticks = 160 * 4 - 4 then
          { hw with ppu := { hw.ppu with dma_transfer := none } }
        else
          { hw with ppu := { hw.ppu with dma_transfer := some (.transferring new_ticks) } }
  | none => some hw

/-- Rust `Hardware::dma_transfer_running`. -/
def Hardware.dma_transfer_running (hw : Hardware) : Bool :=
  hw.ppu.dma_transfer.isSome

/-- Rust `Hardware::has_pending_interrupts`:
`(enabled_bitfield & requested_bitfield) != 0` — note the absence of the
five-bit mask that `pending_bitfield` applies. -/
def Hardware.has_pending_interrupts (hw : Hardware) : Bool :=
  (hw.interrupts.enabled_bitfield &&& hw.interrupts.requested_bitfield) != 0

/-- Rust `Hardware::clear_interrupt`. -/
def Hardware.clear_interrupt (hw : Hardware) (k : Interrupt) : Hardware :=
  { hw with interrupts := hw.interrupts.clear_interrupt k }

/-- Modelled from the spec: `Cpu::step_interrupts` calls
`Hardware::next_pending_interrupt`, whose body is not part of this source
snapshot; per §4.1, next-pending is the set bit of lowest numeric value of the
pending bitfield, or none, realized through
`Interrupts::next_interrupt_from_bitfield`. -/
def Hardware.next_pending_interrupt (hw : Hardware) : Option Interrupt :=
  Interrupts.next_interrupt_from_bitfield hw.interrupts.pending_bitfield

/-- Rust `CpuState` from `src/hardware/cpu.rs`. -/
inductive CpuState
  | running
  | halted
  | stopped
  | handlingInterrupts
deriving DecidableEq

/-- Rust `CpuCycle` from `src/hardware/cpu.rs`. -/
inductive CpuCycle
  | m1
  | m2
  | m3
  | m4
  | m5
  | m6
deriving DecidableEq

/-- Rust `Registers` from `src/hardware/registers.rs`. -/
structure Registers where
  a : Nat
  b : Nat
  c : Nat
  d : Nat
  e : Nat
  h : Nat
  l : Nat
  pc : Nat
  sp : Nat
  ir : Nat
deriving DecidableEq

/-- Rust `Registers::default` (`sp = u16::MAX`). -/
def Registers.default : Registers :=
  { a := 0, b := 0, c := 0, d := 0, e := 0, h := 0, l := 0,
    pc := 0, sp := 65535, ir := 0 }

/-- Rust `Cpu` from `src/hardware/cpu.rs` (the elapsed `t_cycles` counter is kept
by the 4-phase driver and plays no role in the embedded machine cycles). -/
structure Cpu where
  flags : Nat
  registers : Registers
  state : CpuState
  halt_bug : Bool
  interrupt_master_enabled : Bool
  cycle : CpuCycle
  should_handle_interrupts : Bool
  saw_prefix_opcode : Bool
  last_instruction : Nat
  initial_fetch : Bool
  data_buffer : Nat × Nat
deriving DecidableEq

/-- Rust `Cpu::new`. -/
def Cpu.new : Cpu :=
  { flags := 0, registers := Registers.default, state := .running,
    halt_bug := false, interrupt_master_enabled := false, cycle := .m1,
    should_handle_interrupts := false, saw_prefix_opcode := false,
    last_instruction := 0, initial_fetch := false, data_buffer := (0, 0) }

/-- Rust `Cpu::fetch_byte`: read the byte at PC; PC is not advanced (and the flag
is cleared) in the bugged-HALT state. -/
def Cpu.fetch_byte (cpu : Cpu) (hw : Hardware) : Option (Nat × Cpu) :=
  (hw.read_byte cpu.registers.pc).map fun byte =>
    if cpu.halt_bug then
      (byte, { cpu with halt_bug := false })
    else
      (byte, { cpu with registers := { cpu.registers with pc := wrap16 (cpu.registers.pc + 1) } })

/-- Rust `Cpu::complete_cycle`. -/
def Cpu.complete_cycle (cpu : Cpu) (hw : Hardware) : Option Cpu :=
  let cpu := { cpu with cycle := CpuCycle.m1, last_instruction := cpu.registers.ir }
  (cpu.fetch_byte hw).map fun p =>
    { p.2 with registers := { p.2.registers with ir := p.1 } }

/-- Rust `Cpu::fetch_cycle`. -/
def Cpu.fetch_cycle (cpu : Cpu) (hw : Hardware) : Option Cpu :=
  (cpu.complete_cycle hw).map fun c =>
    { c with should_handle_interrupts :=
        c.interrupt_master_enabled && hw.has_pending_interrupts }

/-- Rust `Cpu::step_interrupts`: one M-cycle of interrupt servicing. -/
def Cpu.step_interrupts (cpu : Cpu) (hw : Hardware) : Option (Cpu × Hardware) :=
  match cpu.cycle with
  | .m1 =>
      some ({ cpu with
        registers := { cpu.registers with pc := sub16 cpu.registers.pc 1 },
        cycle := .m2 }, hw)
  | .m2 =>
      some ({ cpu with
        registers := { cpu.registers with sp := sub16 cpu.registers.sp 1 },
        cycle := .m3 }, hw)
  | .m3 =>
      let pc_high := cpu.registers.pc >>> 8
      let hw := hw.write_byte cpu.registers.sp pc_high
      some ({ cpu with
        registers := { cpu.registers with sp := sub16 cpu.registers.sp 1 },
        cycle := .m4 }, hw)
  | .m4 =>
      let pc_low := cpu.registers.pc &&& 0x00FF
      let prev_interrupt := hw.next_pending_interrupt
      let hw := hw.write_byte cpu.registers.sp pc_low
      let curr_interrupt := hw.next_pending_interrupt
      let interrupt :=
        match prev_interrupt, curr_interrupt with
        | none, some new => some new
        | some old, none => some old
        | some old, some new => some (old.prioritize new)
        | none, none => none
      let pc := match interrupt with
        | none => 0x0000
        | some i => i.to_vector
      let hw := match interrupt with
        | none => hw
        | some i => hw.clear_interrupt i
      some ({ cpu with
        registers := { cpu.registers with pc := pc },
        interrupt_master_enabled := false,
        cycle := .m5 }, hw)
  | .m5 =>
      (Cpu.fetch_cycle { cpu with state := .running } hw).map fun c => (c, hw)
  | .m6 => some (cpu, hw)

/-- The `HALT` arm (opcode 0x76) of `Cpu::step_instruction`; the hardware is
only read, never written, by this arm. -/
def Cpu.step_instruction_halt (cpu : Cpu) (hw : Hardware) : Option Cpu :=
  if cpu.cycle = CpuCycle.m1 then
    let cpu :=
      if !cpu.interrupt_master_enabled && hw.has_pending_interrupts then
        { cpu with halt_bug := true, state := .running }
      else
        { cpu with state := .halted }
    cpu.fetch_cycle hw
  else some cpu

/-- The `PUSH r16` arm (opcodes 0xC5/0xD5/0xE5/0xF5) of
`Cpu::step_instruction`, one M-cycle; the register pair is the two bits
`(opcode >> 4) & 0x03` of the instruction register (BC=0, DE=1, HL=2, AF=3). -/
def Cpu.step_instruction_push (cpu : Cpu) (hw : Hardware) : Option (Cpu × Hardware) :=
  match cpu.cycle with
  | .m1 => some ({ cpu with cycle := .m2 }, hw)
  | .m2 =>
      some ({ cpu with
        registers := { cpu.registers with sp := sub16 cpu.registers.sp 1 },
        cycle := .m3 }, hw)
  | .m3 =>
      let rp := (cpu.registers.ir >>> 4) &&& 0x03
      let v := if rp = 0 then cpu.registers.b
        else if rp = 1 then cpu.registers.d
        else if rp = 2 then cpu.registers.h
        else cpu.registers.a
      let hw := hw.write_byte cpu.registers.sp v
      some ({ cpu with
        registers := { cpu.registers with sp := sub16 cpu.registers.sp 1 },
        cycle := .m4 }, hw)
  | .m4 =>
      let rp := (cpu.registers.ir >>> 4) &&& 0x03
      let v := if rp = 0 then cpu.registers.c
        else if rp = 1 then cpu.registers.e
        else if rp = 2 then cpu.registers.l
        else cpu.flags
      let hw := hw.write_byte cpu.registers.sp v
      (cpu.fetch_cycle hw).map fun c => (c, hw)
  | _ => some (cpu, hw)

/-- The `POP r16` arm (opcodes 0xC1/0xD1/0xE1/0xF1) of
`Cpu::step_instruction`, one M-cycle; this arm only reads the hardware. -/
def Cpu.step_instruction_pop (cpu : Cpu) (hw : Hardware) : Option Cpu :=
  match cpu.cycle with
  | .m1 => some { cpu with cycle := .m2 }
  | .m2 =>
      (hw.read_byte cpu.registers.sp).map fun lower_byte =>
        { cpu with
          registers := { cpu.registers with sp := wrap16 (cpu.registers.sp + 1) },
          data_buffer := (lower_byte, cpu.data_buffer.2),
          cycle := .m3 }
  | .m3 =>
      (hw.read_byte cpu.registers.sp).bind fun upper_byte =>
        let cpu :=
          { cpu with registers := { cpu.registers with sp := wrap16 (cpu.registers.sp + 1) } }
        let lower_byte := cpu.data_buffer.1
        let rp := (cpu.registers.ir >>> 4) &&& 0x03
        let cpu :=
          if rp = 0 then
            { cpu with registers := { cpu.registers with b := upper_byte, c := lower_byte } }
          else if rp = 1 then
            { cpu with registers := { cpu.registers with d := upper_byte, e := lower_byte } }
          else if rp = 2 then
            { cpu with registers := { cpu.registers with h := upper_byte, l := lower_byte } }
          else
            { cpu with
              registers := { cpu.registers with a := upper_byte },
              flags := lower_byte &&& 0xF0 }
        cpu.fetch_cycle hw
  | _ => some cpu

/-- Rust `PUSH rp` immediately followed by `POP rp`: runs the four machine cycles
of PUSH (its terminal fetch loading the next opcode), installs the POP opcode
of the same register pair in the instruction register (the byte the fetch
would deliver when POP is the next instruction in memory), and runs the three
machine cycles of POP. -/
def push_pop (rp : Nat) (cpu : Cpu) (hw : Hardware) : Option (Cpu × Hardware) :=
  let push_opcode := 0xC5 ||| (rp <<< 4)
  let pop_opcode := 0xC1 ||| (rp <<< 4)
  let cpu := { cpu with
    registers := { cpu.registers with ir := push_opcode }, cycle := CpuCycle.m1 }
  (Cpu.step_instruction_push cpu hw).bind fun p =>
  (Cpu.step_instruction_push p.1 p.2).bind fun p =>
  (Cpu.step_instruction_push p.1 p.2).bind fun p =>
  (Cpu.step_instruction_push p.1 p.2).bind fun p =>
  let cpu := { p.1 with
    registers := { p.1.registers with ir := pop_opcode }, cycle := CpuCycle.m1 }
  (Cpu.step_instruction_pop cpu p.2).bind fun c =>
  (Cpu.step_instruction_pop c p.2).bind fun c =>
  (Cpu.step_instruction_pop c p.2).map fun c => (c, p.2)

/-- A hardware aggregate with empty stores and default components around the
given cartridge. -/
def hwBase (cart : Cartridge) : Hardware :=
  { memory := fun _ => 0, high_ram := fun _ => 0, joypad := Joypad.new,
    cartridge := cart, timer := Timer.new, ppu := Ppu.new, apu := Apu.new,
    interrupts := Interrupts.new }

/-- C10: on a ROM-only cartridge every bus read below 0x8000 is exactly the
direct (panicking) index into the image, and those reads are all non-panicking
precisely when the image is at least 0x8000 bytes long. -/
theorem c10_romonly_rom_reads (hw : Hardware) (rom : List Nat)
    (hcart : hw.cartridge = .romOnly ⟨rom⟩) :
    (∀ address, address < 0x8000 → hw.read_byte address = rom.get? address) ∧
    ((∀ address, address < 0x8000 → (hw.read_byte address).isSome) ↔
      0x8000 ≤ rom.length) := by
  have hread : ∀ address, address < 0x8000 → hw.read_byte address = rom.get? address := by
    intro a ha
    unfold Hardware.read_byte
    rcases Nat.lt_or_ge a 0x4000 with h | h
    · simp [h, hcart, Cartridge.read_rom, RomOnly.read_rom]
    · simp [Nat.not_lt.2 h, ha, hcart, Cartridge.read_rom, RomOnly.read_rom]
  refine ⟨hread, ?_, ?_⟩
  · intro h
    have := h 0x7FFF (by omega)
    rw [hread 0x7FFF (by omega)] at this
    have hne := Option.isSome_iff_ne_none.mp this
    rw [Ne, List.get?_eq_none] at hne
    omega
  · intro hlen a ha
    rw [hread a ha]
    have : rom.get? a ≠ none := by
      rw [Ne, List.get?_eq_none]
      omega
    exact Option.isSome_iff_ne_none.mpr this

/-- A four-byte ROM-only image, far shorter than 32 KiB. -/
def romShort : List Nat := [0x11, 0x22, 0x33, 0x44]

/-- Witness for C10: on the four-byte image, an in-range read returns the
image byte and a read at 0x4000 hits the panicking `unwrap` (`none`). -/
theorem c10_romonly_rom_reads_witness :
    (hwBase (.romOnly ⟨romShort⟩)).read_byte 2 = some 0x33 ∧
    (hwBase (.romOnly ⟨romShort⟩)).read_byte 0x4000 = none := by
  have h := c10_romonly_rom_reads (hwBase (.romOnly ⟨romShort⟩)) romShort rfl
  exact ⟨(h.1 2 (by omega)).trans rfl, (h.1 0x4000 (by omega)).trans rfl⟩

/-- A hardware state with the LCD on, the PPU in HBlank, a DMA transfer in
its transferring phase, and OAM filled with 0x42. -/
def hwGatedOam : Hardware :=
  { hwBase (.romOnly ⟨[]⟩) with
    ppu := { Ppu.new with
      lcdc := 0x80, stat := 0, dma_transfer := some (.transferring 40),
      oam := fun _ => 0x42 } }

/-- C3: with an active DMA transfer (PPU mode HBlank, LCD on) the claim makes
OAM gated, yet a bus read of 0xFE00 returns the OAM byte 0x42 rather than
0xFF, and a bus write of 0x99 to 0xFE00 lands in OAM; `Hardware::read_byte`
and `Hardware::write_byte` never consult the DMA engine. -/
theorem c3_oam_not_gated_during_dma :
    hwGatedOam.dma_transfer_running = true ∧
    hwGatedOam.ppu.current_mode = PpuMode.hBlank ∧
    hwGatedOam.ppu.display_enabled = true ∧
    hwGatedOam.read_byte 0xFE00 = some 0x42 ∧
    (hwGatedOam.write_byte 0xFE00 0x99).ppu.read_oam 0xFE00 = 0x99 := by
  refine ⟨rfl, rfl, rfl, ?_, ?_⟩ <;> decide

/-- A hardware state in which the DMA engine is transferring byte 10 of
source page 0x80 while the CPU's PC sits at 0xC000 (whose byte is 0x00). -/
def hwFetchDma : Hardware :=
  { hwBase (.romOnly ⟨[]⟩) with
    ppu := { Ppu.new with
      dma := 0x80, dma_transfer := some (.transferring 40),
      memory := fun i => i % 256 } }

/-- C2: while the DMA engine is transferring byte 10 (which would read 10
from `(0x80 << 8) + 10`), an opcode fetch from PC = 0xC000 (below high RAM)
returns the byte stored at PC (0x00), not the DMA byte; PC advances by one.
`Cpu::fetch_byte` performs a plain `read_byte` at PC with no DMA check. -/
theorem c2_fetch_ignores_dma :
    hwFetchDma.ppu.dma_transfer = some (.transferring 40) ∧
    (40 : Nat) / 4 = 10 ∧
    hwFetchDma.read_byte ((hwFetchDma.ppu.dma <<< 8) + 10) = some 10 ∧
    (Cpu.fetch_byte { Cpu.new with
        registers := { Registers.default with pc := 0xC000 } } hwFetchDma).map
      (fun p => (p.1, p.2.registers.pc)) = some (0x00, 0xC001) := by
  refine ⟨rfl, rfl, ?_, ?_⟩ <;> decide

/-- The DMA engine started by a write of 0xC0 to the DMA register 0xFF46 on
an idle PPU, over work RAM holding byte `(i + 1) % 256` at address
`0xC000 + i`. -/
def hwDmaRun : Hardware :=
  { hwBase (.romOnly ⟨[]⟩) with
    memory := fun i => (i + 1) % 256,
    ppu := Ppu.new.write_register 0xFF46 0xC0 }

/-- Iterated T-cycle stepping of the DMA engine from `hwDmaRun`. -/
def dma_run : Nat → Option Hardware
  | 0 => some hwDmaRun
  | n + 1 => (dma_run n).bind Hardware.step_dma_transfer

set_option maxRecDepth 100000 in
/-- C4: the write to 0xFF46 leaves a requested transfer; the engine enters
its transferring phase only after 5 T-cycles (not 4); after 641 total
T-cycles the transfer is over, having spent 636 (not 640) transferring
T-cycles, OAM byte 158 received its source byte 159 (= 0xC09E + 1), and OAM
byte 159 was never written (still 0 instead of source byte 160): only 159 of
the 160 bytes are transferred. -/
theorem c4_dma_misses_last_byte :
    (hwDmaRun.ppu.dma = 0xC0 ∧ hwDmaRun.ppu.dma_transfer = some .requested) ∧
    (dma_run 4).map (fun h => h.ppu.dma_transfer) = some (some (.starting 3)) ∧
    (dma_run 5).map (fun h => h.ppu.dma_transfer) = some (some (.transferring 0)) ∧
    (dma_run 640).map (fun h => h.ppu.dma_transfer) = some (some (.transferring 635)) ∧
    (dma_run 641).map (fun h => h.ppu.dma_transfer) = some none ∧
    (dma_run 641).map (fun h => (h.ppu.oam 158, h.ppu.oam 159)) = some (159, 0) := by
  refine ⟨⟨rfl, rfl⟩, ?_, ?_, ?_, ?_, ?_⟩ <;> decide

/-- C8: writing a channel-control byte `v` that flips length-enable from 0 to
1 while the next frame-sequencer step `fs` is odd (a step that does not clock
length), for every channel with a length counter — pulse-sweep (0xFF14,
max 64), pulse (0xFF19, max 64), wave (0xFF1E, max 256) and noise (0xFF23,
max 64): a nonzero counter drops by one, whether or not the same write also
requests a trigger (the triggering case stated for counters ≥ 2, where the
trigger cannot reload); without a trigger the channel is disabled when that
drop reaches zero; and when a trigger in the same write reloads a zero (or
just-decremented-to-zero) counter to its maximum, the counter is decremented
once more (to max − 1). -/
theorem c8_length_enable_odd_step_edges (s : PulseSweepChannel.State)
    (p : PulseChannel.State) (w : WaveChannel.State) (nz : NoiseChannel.State)
    (v fs : Nat) (hfs : fs % 2 = 1)
    (hs : isFlagSet s.nr14 0x40 = false)
    (hp : isFlagSet p.nr24 0x40 = false)
    (hwp : isFlagSet w.nr34 0x40 = false)
    (hn : isFlagSet nz.nr44 0x40 = false)
    (hpv : isFlagSet v 0x40 = true) :
    ((isFlagSet v 0x80 = false → 0 < s.length_timer →
        (s.write_register true 0xFF14 v fs).length_timer = s.length_timer - 1 ∧
        (s.length_timer = 1 → (s.write_register true 0xFF14 v fs).enabled = false)) ∧
      (isFlagSet v 0x80 = true → 2 ≤ s.length_timer →
        (s.write_register true 0xFF14 v fs).length_timer = s.length_timer - 1) ∧
      (isFlagSet v 0x80 = true → s.length_timer = 0 ∨ s.length_timer = 1 →
        (s.write_register true 0xFF14 v fs).length_timer = 63)) ∧
    ((isFlagSet v 0x80 = false → 0 < p.length_timer →
        (p.write_register true 0xFF19 v fs).length_timer = p.length_timer - 1 ∧
        (p.length_timer = 1 → (p.write_register true 0xFF19 v fs).enabled = false)) ∧
      (isFlagSet v 0x80 = true → 2 ≤ p.length_timer →
        (p.write_register true 0xFF19 v fs).length_timer = p.length_timer - 1) ∧
      (isFlagSet v 0x80 = true → p.length_timer = 0 ∨ p.length_timer = 1 →
        (p.write_register true 0xFF19 v fs).length_timer = 63)) ∧
    ((isFlagSet v 0x80 = false → 0 < w.length_timer →
        (w.write_register true 0xFF1E v fs).length_timer = w.length_timer - 1 ∧
        (w.length_timer = 1 → (w.write_register true 0xFF1E v fs).enabled = false)) ∧
      (isFlagSet v 0x80 = true → 2 ≤ w.length_timer →
        (w.write_register true 0xFF1E v fs).length_timer = w.length_timer - 1) ∧
      (isFlagSet v 0x80 = true → w.length_timer = 0 ∨ w.length_timer = 1 →
        (w.write_register true 0xFF1E v fs).length_timer = 255)) ∧
    ((isFlagSet v 0x80 = false → 0 < nz.length_timer →
        (nz.write_register 0xFF23 v fs).length_timer = nz.length_timer - 1 ∧
        (nz.length_timer = 1 → (nz.write_register 0xFF23 v fs).enabled = false)) ∧
      (isFlagSet v 0x80 = true → 2 ≤ nz.length_timer →
        (nz.write_register 0xFF23 v fs).length_timer = nz.length_timer - 1) ∧
      (isFlagSet v 0x80 = true → nz.length_timer = 0 ∨ nz.length_timer = 1 →
        (nz.write_register 0xFF23 v fs).length_timer = 63)) := by
  have hone : (fs &&& 1) = 1 := by rw [Nat.and_one_is_mod, hfs]
  have ha14 : (0xFF14 : Nat) &&& 0xFF = 0x14 := by decide
  have ha19 : (0xFF19 : Nat) &&& 0xFF = 0x19 := by decide
  have ha1E : (0xFF1E : Nat) &&& 0xFF = 0x1E := by decide
  have ha23 : (0xFF23 : Nat) &&& 0xFF = 0x23 := by decide
  refine ⟨⟨?_, ?_, ?_⟩, ⟨?_, ?_, ?_⟩, ⟨?_, ?_, ?_⟩, ?_, ?_, ?_⟩
  · intro htrig hlen
    simp [PulseSweepChannel.State.write_register, PulseSweepChannel.State.trigger,
      PulseSweepChannel.State.reload_length_timer,
      PulseSweepChannel.MAX_CHANNEL_TIMER_LENGTH,
      PulseSweepChannel.CHANNEL_TRIGGER_MASK, PulseSweepChannel.TIMER_LENGTH_ENABLE_MASK,
      apply_ite PulseSweepChannel.State.length_timer,
      apply_ite PulseSweepChannel.State.enabled,
      ha14, hs, hpv, htrig, hone, hlen]
    exact ⟨fun h1 h2 => by omega, fun h1 h2 => by omega⟩
  · intro htrig h2
    have hpos : 0 < s.length_timer := by omega
    have hne1 : ¬(s.length_timer - 1 = 0) := by omega
    simp [PulseSweepChannel.State.write_register, PulseSweepChannel.State.trigger,
      PulseSweepChannel.State.reload_length_timer,
      PulseSweepChannel.MAX_CHANNEL_TIMER_LENGTH,
      PulseSweepChannel.CHANNEL_TRIGGER_MASK, PulseSweepChannel.TIMER_LENGTH_ENABLE_MASK,
      apply_ite PulseSweepChannel.State.length_timer,
      apply_ite PulseSweepChannel.State.enabled,
      ha14, hs, hpv, htrig, hone, hpos, hne1]
    try omega
  · intro htrig hcase
    rcases hcase with h0 | h1
    · simp [PulseSweepChannel.State.write_register, PulseSweepChannel.State.trigger,
        PulseSweepChannel.State.reload_length_timer,
        PulseSweepChannel.MAX_CHANNEL_TIMER_LENGTH,
        PulseSweepChannel.CHANNEL_TRIGGER_MASK, PulseSweepChannel.TIMER_LENGTH_ENABLE_MASK,
        apply_ite PulseSweepChannel.State.length_timer,
        apply_ite PulseSweepChannel.State.enabled,
        ha14, hs, hpv, htrig, hone, h0]
    · simp [PulseSweepChannel.State.write_register, PulseSweepChannel.State.trigger,
        PulseSweepChannel.State.reload_length_timer,
        PulseSweepChannel.MAX_CHANNEL_TIMER_LENGTH,
        PulseSweepChannel.CHANNEL_TRIGGER_MASK, PulseSweepChannel.TIMER_LENGTH_ENABLE_MASK,
        apply_ite PulseSweepChannel.State.length_timer,
        apply_ite PulseSweepChannel.State.enabled,
        ha14, hs, hpv, htrig, hone, h1]
  · intro htrig hlen
    simp [PulseChannel.State.write_register, PulseChannel.State.trigger,
      PulseChannel.State.reload_length_timer, PulseChannel.MAX_CHANNEL_TIMER_LENGTH,
      PulseChannel.CHANNEL_TRIGGER_MASK, PulseChannel.TIMER_LENGTH_ENABLE_MASK,
      apply_ite PulseChannel.State.length_timer, apply_ite PulseChannel.State.enabled,
      ha19, hp, hpv, htrig, hone, hlen]
    exact ⟨fun h1 h2 => by omega, fun h1 h2 => by omega⟩
  · intro htrig h2
    have hpos : 0 < p.length_timer := by omega
    have hne1 : ¬(p.length_timer - 1 = 0) := by omega
    simp [PulseChannel.State.write_register, PulseChannel.State.trigger,
      PulseChannel.State.reload_length_timer, PulseChannel.MAX_CHANNEL_TIMER_LENGTH,
      PulseChannel.CHANNEL_TRIGGER_MASK, PulseChannel.TIMER_LENGTH_ENABLE_MASK,
      apply_ite PulseChannel.State.length_timer, apply_ite PulseChannel.State.enabled,
      ha19, hp, hpv, htrig, hone, hpos, hne1]
    try omega
  · intro htrig hcase
    rcases hcase with h0 | h1
    · simp [PulseChannel.State.write_register, PulseChannel.State.trigger,
        PulseChannel.State.reload_length_timer, PulseChannel.MAX_CHANNEL_TIMER_LENGTH,
        PulseChannel.CHANNEL_TRIGGER_MASK, PulseChannel.TIMER_LENGTH_ENABLE_MASK,
        apply_ite PulseChannel.State.length_timer, apply_ite PulseChannel.State.enabled,
        ha19, hp, hpv, htrig, hone, h0]
    · simp [PulseChannel.State.write_register, PulseChannel.State.trigger,
        PulseChannel.State.reload_length_timer, PulseChannel.MAX_CHANNEL_TIMER_LENGTH,
        PulseChannel.CHANNEL_TRIGGER_MASK, PulseChannel.TIMER_LENGTH_ENABLE_MASK,
        apply_ite PulseChannel.State.length_timer, apply_ite PulseChannel.State.enabled,
        ha19, hp, hpv, htrig, hone, h1]
  · intro htrig hlen
    simp [WaveChannel.State.write_register, WaveChannel.State.trigger,
      WaveChannel.State.reload_length_timer, WaveChannel.MAX_CHANNEL_TIMER_LENGTH,
      WaveChannel.CHANNEL_TRIGGER_MASK, WaveChannel.TIMER_LENGTH_ENABLE_MASK,
      apply_ite WaveChannel.State.length_timer, apply_ite WaveChannel.State.enabled,
      ha1E, hwp, hpv, htrig, hone, hlen]
    exact ⟨fun h1 h2 => by omega, fun h1 h2 => by omega⟩
  · intro htrig h2
    have hpos : 0 < w.length_timer := by omega
    have hne1 : ¬(w.length_timer - 1 = 0) := by omega
    simp [WaveChannel.State.write_register, WaveChannel.State.trigger,
      WaveChannel.State.reload_length_timer, WaveChannel.MAX_CHANNEL_TIMER_LENGTH,
      WaveChannel.CHANNEL_TRIGGER_MASK, WaveChannel.TIMER_LENGTH_ENABLE_MASK,
      apply_ite WaveChannel.State.length_timer, apply_ite WaveChannel.State.enabled,
      ha1E, hwp, hpv, htrig, hone, hpos, hne1]
    try omega
  · intro htrig hcase
    rcases hcase with h0 | h1
    · simp [WaveChannel.State.write_register, WaveChannel.State.trigger,
        WaveChannel.State.reload_length_timer, WaveChannel.MAX_CHANNEL_TIMER_LENGTH,
        WaveChannel.CHANNEL_TRIGGER_MASK, WaveChannel.TIMER_LENGTH_ENABLE_MASK,
        apply_ite WaveChannel.State.length_timer, apply_ite WaveChannel.State.enabled,
        ha1E, hwp, hpv, htrig, hone, h0]
    · simp [WaveChannel.State.write_register, WaveChannel.State.trigger,
        WaveChannel.State.reload_length_timer, WaveChannel.MAX_CHANNEL_TIMER_LENGTH,
        WaveChannel.CHANNEL_TRIGGER_MASK, WaveChannel.TIMER_LENGTH_ENABLE_MASK,
        apply_ite WaveChannel.State.length_timer, apply_ite WaveChannel.State.enabled,
        ha1E, hwp, hpv, htrig, hone, h1]
  · intro htrig hlen
    simp [NoiseChannel.State.write_register, NoiseChannel.State.trigger,
      NoiseChannel.State.reload_length_timer, NoiseChannel.MAX_CHANNEL_TIMER_LENGTH,
      NoiseChannel.CHANNEL_TRIGGER_MASK, NoiseChannel.TIMER_LENGTH_ENABLE_MASK,
      apply_ite NoiseChannel.State.length_timer, apply_ite NoiseChannel.State.enabled,
      ha23, hn, hpv, htrig, hone, hlen]
    exact ⟨fun h1 h2 => by omega, fun h1 h2 => by omega⟩
  · intro htrig h2
    have hpos : 0 < nz.length_timer := by omega
    have hne1 : ¬(nz.length_timer - 1 = 0) := by omega
    simp [NoiseChannel.State.write_register, NoiseChannel.State.trigger,
      NoiseChannel.State.reload_length_timer, NoiseChannel.MAX_CHANNEL_TIMER_LENGTH,
      NoiseChannel.CHANNEL_TRIGGER_MASK, NoiseChannel.TIMER_LENGTH_ENABLE_MASK,
      apply_ite NoiseChannel.State.length_timer, apply_ite NoiseChannel.State.enabled,
      ha23, hn, hpv, htrig, hone, hpos, hne1]
    try omega
  · intro htrig hcase
    rcases hcase with h0 | h1
    · simp [NoiseChannel.State.write_register, NoiseChannel.State.trigger,
        NoiseChannel.State.reload_length_timer, NoiseChannel.MAX_CHANNEL_TIMER_LENGTH,
        NoiseChannel.CHANNEL_TRIGGER_MASK, NoiseChannel.TIMER_LENGTH_ENABLE_MASK,
        apply_ite NoiseChannel.State.length_timer, apply_ite NoiseChannel.State.enabled,
        ha23, hn, hpv, htrig, hone, h0]
    · simp [NoiseChannel.State.write_register, NoiseChannel.State.trigger,
        NoiseChannel.State.reload_length_timer, NoiseChannel.MAX_CHANNEL_TIMER_LENGTH,
        NoiseChannel.CHANNEL_TRIGGER_MASK, NoiseChannel.TIMER_LENGTH_ENABLE_MASK,
        apply_ite NoiseChannel.State.length_timer, apply_ite NoiseChannel.State.enabled,
        ha23, hn, hpv, htrig, hone, h1]

/-- The non-panicking precondition for cartridge ROM reads: a ROM-only image
must span the full 0x8000-byte ROM region (the MBC1 variant reads with a
0xFF default and cannot panic). -/
def Cartridge.romOk : Cartridge → Prop
  | .romOnly c => 0x8000 ≤ c.rom.length
  | .mbc1 _ => True

theorem Cartridge.read_rom_isSome {c : Cartridge} (h : c.romOk) {a : Nat}
    (ha : a < 0x8000) : (c.read_rom a).isSome := by
  cases c with
  | romOnly r =>
      simp only [Cartridge.romOk] at h
      simp only [Cartridge.read_rom, RomOnly.read_rom]
      rw [Option.isSome_iff_ne_none, Ne, List.get?_eq_none]
      omega
  | mbc1 m => simp [Cartridge.read_rom]

set_option maxHeartbeats 1000000 in
theorem Hardware.read_byte_isSome (hw : Hardware) (h : hw.cartridge.romOk)
    (a : Nat) : (hw.read_byte a).isSome := by
  unfold Hardware.read_byte
  split_ifs <;> first | simp | exact Cartridge.read_rom_isSome h (by omega)

theorem Cartridge.write_rom_romOk {c : Cartridge} (a v : Nat) (h : c.romOk) :
    (c.write_rom a v).romOk := by
  cases c with
  | romOnly r => exact h
  | mbc1 m => trivial

theorem Cartridge.write_ram_romOk {c : Cartridge} (a v : Nat) (h : c.romOk) :
    (c.write_ram a v).romOk := by
  cases c with
  | romOnly r => exact h
  | mbc1 m => trivial

theorem Hardware.write_io_register_cartridge (hw : Hardware) (a v : Nat) :
    (hw.write_io_register a v).cartridge = hw.cartridge := by
  unfold Hardware.write_io_register
  split_ifs <;> rfl

theorem Hardware.write_byte_romOk (hw : Hardware) (a v : Nat)
    (h : hw.cartridge.romOk) : ((hw.write_byte a v).cartridge).romOk := by
  unfold Hardware.write_byte
  by_cases h1 : a < 0x4000
  · rw [if_pos h1]; exact Cartridge.write_rom_romOk a v h
  rw [if_neg h1]
  by_cases h2 : a < 0x8000
  · rw [if_pos h2]; exact Cartridge.write_rom_romOk a v h
  rw [if_neg h2]
  by_cases h3 : a < 0xA000
  · rw [if_pos h3]; split <;> exact h
  rw [if_neg h3]
  by_cases h4 : a < 0xC000
  · rw [if_pos h4]; exact Cartridge.write_ram_romOk a v h
  rw [if_neg h4]
  by_cases h5 : a < 0xE000
  · rw [if_pos h5]; exact h
  rw [if_neg h5]
  by_cases h6 : a < 0xFE00
  · rw [if_pos h6]; exact h
  rw [if_neg h6]
  by_cases h7 : a < 0xFEA0
  · rw [if_pos h7]; split <;> exact h
  rw [if_neg h7]
  by_cases h8 : a < 0xFF00
  · rw [if_pos h8]; exact h
  rw [if_neg h8]
  by_cases h9 : a < 0xFF80
  · rw [if_pos h9]; rw [Hardware.write_io_register_cartridge]; exact h
  rw [if_neg h9]
  by_cases h10 : a < 0xFFFF
  · rw [if_pos h10]; exact h
  · rw [if_neg h10]; exact h

/-- An empty MBC1 cartridge (whose reads never panic). -/
def mbcEmpty : Mbc1 :=
  { rom := [], ram := fun _ => 0, rom_bank := 1, ram_bank := 0,
    ram_enabled := false, banking_mode := .simple }

/-- The CPU about to execute HALT (opcode 0x76 in the instruction register,
machine cycle M1) at PC = 0xC000. -/
def cpuAtHalt : Cpu :=
  { Cpu.new with registers := { Registers.default with pc := 0xC000, ir := 0x76 } }

/-- Hardware whose interrupt latch has IE = 0x20 (only an upper, sourceless
bit) and IF = 0: no interrupt source is both enabled and requested. -/
def hwUpperIE : Hardware :=
  { hwBase (.mbc1 mbcEmpty) with interrupts := { requested := 0, enabled := 0x20 } }

/-- C7 counterexample: with IE = 0x20 and IF = 0 the pending bitfield is
empty — no interrupt source is both enabled and requested — and the master
enable is false, yet HALT does not enter the halted state: the CPU stays
running with PC not advanced past the following byte (the HALT-bug path),
because `Hardware::has_pending_interrupts` omits the five-bit mask. -/
theorem c7_halt_pending_counterexample :
    hwUpperIE.interrupts.pending_bitfield = 0 ∧
    cpuAtHalt.interrupt_master_enabled = false ∧
    (Cpu.step_instruction_halt cpuAtHalt hwUpperIE).map
      (fun c => (c.state, c.registers.pc)) = some (CpuState.running, 0xC000) := by
  refine ⟨?_, rfl, ?_⟩ <;> decide

/-- C7 (amended): executing HALT (cycle M1, no pending HALT bug) with
master-interrupt-enable false and `has_pending_interrupts` true — that is,
`IE & (IF | 0xE0) ≠ 0`, which also holds when only upper IE bits 5-7 are
set — does not halt: the CPU stays running, the very next opcode fetch (the
one ending this M-cycle) reads the byte at PC without advancing PC and
consumes the HALT-bug flag; otherwise the CPU enters the halted state with a
normal fetch. -/
theorem c7_halt_bug_behaviour (cpu : Cpu) (hw : Hardware)
    (hcyc : cpu.cycle = CpuCycle.m1) (hbug : cpu.halt_bug = false)
    (hrom : hw.cartridge.romOk) :
    (Cpu.step_instruction_halt cpu hw).isSome ∧
    ((cpu.interrupt_master_enabled = false ∧ hw.has_pending_interrupts = true) →
      (Cpu.step_instruction_halt cpu hw).map
          (fun c => (c.state, c.halt_bug, c.registers.pc)) =
        some (CpuState.running, false, cpu.registers.pc) ∧
      (Cpu.step_instruction_halt cpu hw).map (fun c => c.registers.ir) =
        hw.read_byte cpu.registers.pc) ∧
    (¬(cpu.interrupt_master_enabled = false ∧ hw.has_pending_interrupts = true) →
      (Cpu.step_instruction_halt cpu hw).map
          (fun c => (c.state, c.halt_bug, c.registers.pc)) =
        some (CpuState.halted, false, wrap16 (cpu.registers.pc + 1)) ∧
      (Cpu.step_instruction_halt cpu hw).map (fun c => c.registers.ir) =
        hw.read_byte cpu.registers.pc) := by
  obtain ⟨b, hb⟩ := Option.isSome_iff_exists.mp (hw.read_byte_isSome hrom cpu.registers.pc)
  by_cases hcond : cpu.interrupt_master_enabled = false ∧ hw.has_pending_interrupts = true
  · have hcb : (!cpu.interrupt_master_enabled && hw.has_pending_interrupts) = true := by
      simp [hcond.1, hcond.2]
    refine ⟨?_, fun _ => ⟨?_, ?_⟩, fun hn => absurd hcond hn⟩ <;>
      simp [Cpu.step_instruction_halt, hcyc, hcb, Cpu.fetch_cycle,
        Cpu.complete_cycle, Cpu.fetch_byte, hb]
  · have hcb : (!cpu.interrupt_master_enabled && hw.has_pending_interrupts) = false := by
      by_cases hi : cpu.interrupt_master_enabled = true
      · simp [hi]
      · have hi' : cpu.interrupt_master_enabled = false := by
          simpa using hi
        have hp' : hw.has_pending_interrupts = false := by
          by_contra hx
          exact hcond ⟨hi', by simpa using hx⟩
        simp [hi', hp']
    refine ⟨?_, fun hc => absurd hc hcond, fun _ => ⟨?_, ?_⟩⟩ <;>
      simp [Cpu.step_instruction_halt, hcyc, hcb, Cpu.fetch_cycle,
        Cpu.complete_cycle, Cpu.fetch_byte, hb, hbug]

/-- Witness for C7 at a concrete state: IE = 0x20, IF = 0, IME = false, HALT
at PC = 0xC000 takes the HALT-bug path. -/
theorem c7_halt_bug_behaviour_witness :
    (cpuAtHalt.interrupt_master_enabled = false ∧
      hwUpperIE.has_pending_interrupts = true) ∧
    (Cpu.step_instruction_halt cpuAtHalt hwUpperIE).map
        (fun c => (c.state, c.halt_bug, c.registers.pc)) =
      some (CpuState.running, false, 0xC000) := by
  have h := c7_halt_bug_behaviour cpuAtHalt hwUpperIE rfl rfl trivial
  exact ⟨⟨rfl, by decide⟩, (h.2.1 ⟨rfl, by decide⟩).1⟩

/-- Spec-side: the interrupt source with the given bit index. -/
def interruptOfIdx : Nat → Interrupt
  | 0 => .vblank
  | 1 => .lcd
  | 2 => .timer
  | 3 => .serial
  | _ => .joypad

theorem Interrupt.toBit_two_pow (i : Interrupt) : i.toBit = 2 ^ i.bitIdx := by
  cases i <;> decide

theorem Interrupt.bitIdx_lt (i : Interrupt) : i.bitIdx < 8 := by
  cases i <;> decide

theorem mask_testBit : ∀ k, k < 8 → ∀ j, j < 8 →
    (((2 ^ k : Nat) ^^^ 0xFF).testBit j) = !(j == k) := by decide

theorem clear_bit_testBit (r j : Nat) (i : Interrupt) (hj : j < 8) :
    ((r &&& (i.toBit ^^^ 0xFF)).testBit j) =
      (if j = i.bitIdx then false else r.testBit j) := by
  rw [Nat.testBit_and, Interrupt.toBit_two_pow,
    mask_testBit i.bitIdx i.bitIdx_lt j hj]
  by_cases hji : j = i.bitIdx
  · simp [hji]
  · simp [hji]

theorem next_matches_lowest : ∀ b, b < 32 →
    Interrupts.next_interrupt_from_bitfield b =
      (lowestSetBitIdx5 b).map interruptOfIdx := by decide

theorem lowestSetBitIdx5_lt {b k : Nat} (h : lowestSetBitIdx5 b = some k) :
    k < 5 := by
  unfold lowestSetBitIdx5 at h
  split_ifs at h <;> simp_all <;> omega

theorem to_vector_ofIdx : ∀ k, k < 5 → (interruptOfIdx k).to_vector = 0x40 + 8 * k := by
  decide

theorem bitIdx_ofIdx : ∀ k, k < 5 → (interruptOfIdx k).bitIdx = k := by decide

theorem prioritize_ofIdx : ∀ k1, k1 < 5 → ∀ k2, k2 < 5 →
    Interrupt.prioritize (interruptOfIdx k1) (interruptOfIdx k2) =
      interruptOfIdx (min k1 k2) := by decide

theorem Interrupts.pending_bitfield_lt (i : Interrupts) : i.pending_bitfield < 32 := by
  have h := @Nat.and_le_right (i.enabled_bitfield &&& i.requested_bitfield) 0x1F
  unfold Interrupts.pending_bitfield
  omega

/-- Spec-side: the dispatch vector determined by the two pending-set
observations: `0x40 + 8·k` for the surviving lowest bit index `k`, and the
cancellation vector 0x0000 when both observations are empty. -/
def dispatchVector (b1 b2 : Nat) : Nat :=
  match survivorBit b1 b2 with
  | none => 0x0000
  | some k => 0x40 + 8 * k

/-- Spec-side: the IF bit `j` after servicing, given the IF byte `r` after
the M4 stack write and the two observations: the surviving bit is cleared and
every other bit is untouched. -/
def clearedRequestedBit (b1 b2 r j : Nat) : Bool :=
  match survivorBit b1 b2 with
  | none => r.testBit j
  | some k => if j = k then false else r.testBit j

/-- C1: on machine cycle M4 of interrupt servicing the CPU consults the
pending set, writes PC's low byte to the stack, consults the pending set
again, and jumps to `0x40 + 8·k` where `k` is the surviving lowest pending
bit index of the two observations (the smaller index winning when both
survive), or to the cancellation vector 0x0000 when both observations were
empty; the chosen bit is cleared from IF, every other IF bit is untouched,
IE is untouched, everything else in the machine is exactly the post-write
state, and master-interrupt-enable becomes false. -/
theorem c1_interrupt_dispatch (cpu : Cpu) (hw : Hardware)
    (hcyc : cpu.cycle = CpuCycle.m4) :
    ∃ cpu' hw', Cpu.step_interrupts cpu hw = some (cpu', hw') ∧
      cpu'.registers.pc =
        dispatchVector hw.interrupts.pending_bitfield
          (hw.write_byte cpu.registers.sp
            (cpu.registers.pc &&& 0xFF)).interrupts.pending_bitfield ∧
      cpu'.interrupt_master_enabled = false ∧
      cpu'.cycle = CpuCycle.m5 ∧
      (∀ j, j < 8 →
        hw'.interrupts.requested.testBit j =
          clearedRequestedBit hw.interrupts.pending_bitfield
            (hw.write_byte cpu.registers.sp
              (cpu.registers.pc &&& 0xFF)).interrupts.pending_bitfield
            (hw.write_byte cpu.registers.sp
              (cpu.registers.pc &&& 0xFF)).interrupts.requested j) ∧
      hw'.interrupts.enabled =
        (hw.write_byte cpu.registers.sp
          (cpu.registers.pc &&& 0xFF)).interrupts.enabled ∧
      hw' = { hw.write_byte cpu.registers.sp (cpu.registers.pc &&& 0xFF) with
        interrupts := hw'.interrupts } := by
  have h1 := Interrupts.pending_bitfield_lt hw.interrupts
  have h2 := Interrupts.pending_bitfield_lt
    (hw.write_byte cpu.registers.sp (cpu.registers.pc &&& 0xFF)).interrupts
  simp only [Cpu.step_interrupts, hcyc]
  refine ⟨_, _, rfl, ?_⟩
  simp only [Hardware.next_pending_interrupt]
  rw [next_matches_lowest _ h1, next_matches_lowest _ h2]
  unfold dispatchVector clearedRequestedBit survivorBit
  rcases hl1 : lowestSetBitIdx5 hw.interrupts.pending_bitfield with _ | k1 <;>
    rcases hl2 : lowestSetBitIdx5
      (hw.write_byte cpu.registers.sp
        (cpu.registers.pc &&& 0xFF)).interrupts.pending_bitfield with _ | k2
  · exact ⟨rfl, trivial, trivial, fun j hj => rfl, rfl, rfl⟩
  · have hk2 := lowestSetBitIdx5_lt hl2
    refine ⟨to_vector_ofIdx k2 hk2, trivial, trivial, ?_, rfl, rfl⟩
    intro j hj
    show ((hw.write_byte cpu.registers.sp
        (cpu.registers.pc &&& 0xFF)).interrupts.requested &&&
          ((interruptOfIdx k2).toBit ^^^ 0xFF)).testBit j =
      if j = k2 then false
      else (hw.write_byte cpu.registers.sp
        (cpu.registers.pc &&& 0xFF)).interrupts.requested.testBit j
    rw [clear_bit_testBit _ j _ hj, bitIdx_ofIdx k2 hk2]
  · have hk1 := lowestSetBitIdx5_lt hl1
    refine ⟨to_vector_ofIdx k1 hk1, trivial, trivial, ?_, rfl, rfl⟩
    intro j hj
    show ((hw.write_byte cpu.registers.sp
        (cpu.registers.pc &&& 0xFF)).interrupts.requested &&&
          ((interruptOfIdx k1).toBit ^^^ 0xFF)).testBit j =
      if j = k1 then false
      else (hw.write_byte cpu.registers.sp
        (cpu.registers.pc &&& 0xFF)).interrupts.requested.testBit j
    rw [clear_bit_testBit _ j _ hj, bitIdx_ofIdx k1 hk1]
  · have hk1 := lowestSetBitIdx5_lt hl1
    have hk2 := lowestSetBitIdx5_lt hl2
    have hmin : min k1 k2 < 5 := by omega
    refine ⟨?_, trivial, trivial, ?_, rfl, rfl⟩
    · show (Interrupt.prioritize (interruptOfIdx k1) (interruptOfIdx k2)).to_vector =
        0x40 + 8 * min k1 k2
      rw [prioritize_ofIdx k1 hk1 k2 hk2, to_vector_ofIdx _ hmin]
    · intro j hj
      show ((hw.write_byte cpu.registers.sp
          (cpu.registers.pc &&& 0xFF)).interrupts.requested &&&
            ((Interrupt.prioritize (interruptOfIdx k1)
              (interruptOfIdx k2)).toBit ^^^ 0xFF)).testBit j =
        if j = min k1 k2 then false
        else (hw.write_byte cpu.registers.sp
          (cpu.registers.pc &&& 0xFF)).interrupts.requested.testBit j
      rw [prioritize_ofIdx k1 hk1 k2 hk2, clear_bit_testBit _ j _ hj, bitIdx_ofIdx _ hmin]

/-- A CPU on machine cycle M4 of interrupt servicing, SP in work RAM. -/
def cpuM4 : Cpu :=
  { Cpu.new with
    cycle := CpuCycle.m4,
    registers := { Registers.default with pc := 0x1234, sp := 0xC080 } }

/-- Hardware with the timer interrupt enabled and requested (pending = 0x04). -/
def hwTimerPending : Hardware :=
  { hwBase (.mbc1 mbcEmpty) with interrupts := { requested := 0x04, enabled := 0x05 } }

/-- Witness for C1: with only the timer interrupt pending and the stack in
work RAM, M4 dispatches to vector 0x50 and clears IF bit 2. -/
theorem c1_interrupt_dispatch_witness :
    cpuM4.cycle = CpuCycle.m4 ∧
    dispatchVector hwTimerPending.interrupts.pending_bitfield
      (hwTimerPending.write_byte cpuM4.registers.sp
        (cpuM4.registers.pc &&& 0xFF)).interrupts.pending_bitfield = 0x50 ∧
    (∃ cpu' hw', Cpu.step_interrupts cpuM4 hwTimerPending = some (cpu', hw') ∧
      cpu'.registers.pc =
        dispatchVector hwTimerPending.interrupts.pending_bitfield
          (hwTimerPending.write_byte cpuM4.registers.sp
            (cpuM4.registers.pc &&& 0xFF)).interrupts.pending_bitfield ∧
      cpu'.interrupt_master_enabled = false ∧
      cpu'.cycle = CpuCycle.m5 ∧
      (∀ j, j < 8 →
        hw'.interrupts.requested.testBit j =
          clearedRequestedBit hwTimerPending.interrupts.pending_bitfield
            (hwTimerPending.write_byte cpuM4.registers.sp
              (cpuM4.registers.pc &&& 0xFF)).interrupts.pending_bitfield
            (hwTimerPending.write_byte cpuM4.registers.sp
              (cpuM4.registers.pc &&& 0xFF)).interrupts.requested j) ∧
      hw'.interrupts.enabled =
        (hwTimerPending.write_byte cpuM4.registers.sp
          (cpuM4.registers.pc &&& 0xFF)).interrupts.enabled ∧
      hw' = { hwTimerPending.write_byte cpuM4.registers.sp
          (cpuM4.registers.pc &&& 0xFF) with interrupts := hw'.interrupts }) := by
  refine ⟨rfl, by decide, c1_interrupt_dispatch cpuM4 hwTimerPending rfl⟩

/-- A pulse-sweep channel with a one-step length counter and a live DAC. -/
def sweepShortLen : PulseSweepChannel.State :=
  { PulseSweepChannel.new with length_timer := 1, nr12 := 0xF0 }

/-- A pulse channel with a one-step length counter and a live DAC. -/
def pulseShortLen : PulseChannel.State :=
  { PulseChannel.new with length_timer := 1, nr22 := 0xF0 }

/-- A wave channel with a one-step length counter and its DAC on. -/
def waveShortLen : WaveChannel.State :=
  { WaveChannel.new with length_timer := 1, nr30 := 0x80 }

/-- A noise channel with a one-step length counter and a live DAC. -/
def noiseShortLen : NoiseChannel.State :=
  { NoiseChannel.new with length_timer := 1, nr42 := 0xF0 }

/-- Witness for C8: a trigger write with length-enable rising on an odd next
step takes a just-decremented-to-zero counter to max − 1 on all four
channels with a length counter. -/
theorem c8_length_enable_odd_step_edges_witness :
    ((1 : Nat) % 2 = 1 ∧ isFlagSet sweepShortLen.nr14 0x40 = false ∧
      isFlagSet pulseShortLen.nr24 0x40 = false ∧
      isFlagSet waveShortLen.nr34 0x40 = false ∧
      isFlagSet noiseShortLen.nr44 0x40 = false ∧
      isFlagSet (0xC0 : Nat) 0x40 = true) ∧
    (sweepShortLen.write_register true 0xFF14 0xC0 1).length_timer = 63 ∧
    (pulseShortLen.write_register true 0xFF19 0xC0 1).length_timer = 63 ∧
    (waveShortLen.write_register true 0xFF1E 0xC0 1).length_timer = 255 ∧
    (noiseShortLen.write_register 0xFF23 0xC0 1).length_timer = 63 := by
  have h := c8_length_enable_odd_step_edges sweepShortLen pulseShortLen
    waveShortLen noiseShortLen 0xC0 1
    rfl (by decide) (by decide) (by decide) (by decide) (by decide)
  exact ⟨⟨rfl, by decide, by decide, by decide, by decide, by decide⟩,
    h.1.2.2 (by decide) (Or.inr rfl),
    h.2.1.2.2 (by decide) (Or.inr rfl),
    h.2.2.1.2.2 (by decide) (Or.inr rfl),
    h.2.2.2.2.2 (by decide) (Or.inr rfl)⟩

theorem upd_same (f : Nat → Nat) (k v : Nat) : upd f k v k = v := by
  simp [upd]

theorem upd_ne (f : Nat → Nat) (k v k' : Nat) (h : k' ≠ k) : upd f k v k' = f k' := by
  simp [upd, h]

theorem Hardware.write_byte_wram (hw : Hardware) {a : Nat} (v : Nat)
    (h1 : 0xC000 ≤ a) (h2 : a < 0xE000) :
    hw.write_byte a v = { hw with memory := upd hw.memory (a - 0xC000) v } := by
  unfold Hardware.write_byte
  rw [if_neg (by omega), if_neg (by omega), if_neg (by omega), if_neg (by omega),
    if_pos h2]

theorem Hardware.read_byte_wram (hw : Hardware) {a : Nat}
    (h1 : 0xC000 ≤ a) (h2 : a < 0xE000) :
    hw.read_byte a = some (hw.memory (a - 0xC000)) := by
  unfold Hardware.read_byte
  rw [if_neg (by omega), if_neg (by omega), if_neg (by omega), if_neg (by omega),
    if_pos h2]

theorem write_wram_pair (hw : Hardware) {a1 a2 : Nat} (v1 v2 : Nat)
    (h1 : 0xC000 ≤ a1) (h2 : a1 < 0xE000) (h3 : 0xC000 ≤ a2) (h4 : a2 < 0xE000) :
    (hw.write_byte a1 v1).write_byte a2 v2 =
      { hw with memory := upd (upd hw.memory (a1 - 0xC000) v1) (a2 - 0xC000) v2 } := by
  rw [Hardware.write_byte_wram hw v1 h1 h2, Hardware.write_byte_wram _ v2 h3 h4]

theorem Cpu.push_m1 (cpu : Cpu) (hw : Hardware) (h : cpu.cycle = CpuCycle.m1) :
    cpu.step_instruction_push hw = some ({ cpu with cycle := CpuCycle.m2 }, hw) := by
  unfold Cpu.step_instruction_push
  rw [h]

theorem Cpu.push_m2 (cpu : Cpu) (hw : Hardware) (h : cpu.cycle = CpuCycle.m2) :
    cpu.step_instruction_push hw = some
      ({ cpu with
          registers := { cpu.registers with sp := sub16 cpu.registers.sp 1 },
          cycle := CpuCycle.m3 }, hw) := by
  unfold Cpu.step_instruction_push
  rw [h]

theorem Cpu.push_m3 (cpu : Cpu) (hw : Hardware) (h : cpu.cycle = CpuCycle.m3) :
    cpu.step_instruction_push hw = some
      ({ cpu with
          registers := { cpu.registers with sp := sub16 cpu.registers.sp 1 },
          cycle := CpuCycle.m4 },
        hw.write_byte cpu.registers.sp
          (if (cpu.registers.ir >>> 4) &&& 0x03 = 0 then cpu.registers.b
            else if (cpu.registers.ir >>> 4) &&& 0x03 = 1 then cpu.registers.d
            else if (cpu.registers.ir >>> 4) &&& 0x03 = 2 then cpu.registers.h
            else cpu.registers.a)) := by
  unfold Cpu.step_instruction_push
  rw [h]

theorem Cpu.push_m4 (cpu : Cpu) (hw : Hardware) (h : cpu.cycle = CpuCycle.m4) :
    cpu.step_instruction_push hw =
      (Cpu.fetch_cycle cpu
        (hw.write_byte cpu.registers.sp
          (if (cpu.registers.ir >>> 4) &&& 0x03 = 0 then cpu.registers.c
            else if (cpu.registers.ir >>> 4) &&& 0x03 = 1 then cpu.registers.e
            else if (cpu.registers.ir >>> 4) &&& 0x03 = 2 then cpu.registers.l
            else cpu.flags))).map
        (fun c =>
          (c, hw.write_byte cpu.registers.sp
            (if (cpu.registers.ir >>> 4) &&& 0x03 = 0 then cpu.registers.c
              else if (cpu.registers.ir >>> 4) &&& 0x03 = 1 then cpu.registers.e
              else if (cpu.registers.ir >>> 4) &&& 0x03 = 2 then cpu.registers.l
              else cpu.flags))) := by
  unfold Cpu.step_instruction_push
  rw [h]

theorem Cpu.fetch_cycle_some (cpu : Cpu) (hw : Hardware) (b : Nat)
    (hb : hw.read_byte cpu.registers.pc = some b) (hbug : cpu.halt_bug = false) :
    cpu.fetch_cycle hw = some
      { cpu with
        registers := { cpu.registers with
          pc := wrap16 (cpu.registers.pc + 1),
          ir := b },
        cycle := CpuCycle.m1,
        last_instruction := cpu.registers.ir,
        should_handle_interrupts :=
          cpu.interrupt_master_enabled && hw.has_pending_interrupts } := by
  unfold Cpu.fetch_cycle Cpu.complete_cycle Cpu.fetch_byte
  simp only [hb, hbug, Option.map_some', Bool.false_eq_true, if_false]

theorem Cpu.pop_m1 (cpu : Cpu) (hw : Hardware) (h : cpu.cycle = CpuCycle.m1) :
    cpu.step_instruction_pop hw = some { cpu with cycle := CpuCycle.m2 } := by
  unfold Cpu.step_instruction_pop
  rw [h]

theorem Cpu.pop_m2 (cpu : Cpu) (hw : Hardware) (b : Nat) (h : cpu.cycle = CpuCycle.m2)
    (hb : hw.read_byte cpu.registers.sp = some b) :
    cpu.step_instruction_pop hw = some
      { cpu with
        registers := { cpu.registers with sp := wrap16 (cpu.registers.sp + 1) },
        data_buffer := (b, cpu.data_buffer.2),
        cycle := CpuCycle.m3 } := by
  unfold Cpu.step_instruction_pop
  rw [h]
  simp only [hb, Option.map_some']

theorem Cpu.pop_m3 (cpu : Cpu) (hw : Hardware) (b : Nat) (h : cpu.cycle = CpuCycle.m3)
    (hb : hw.read_byte cpu.registers.sp = some b) :
    cpu.step_instruction_pop hw =
      Cpu.fetch_cycle
        (if (cpu.registers.ir >>> 4) &&& 0x03 = 0 then
          { cpu with registers := { cpu.registers with
              sp := wrap16 (cpu.registers.sp + 1), b := b, c := cpu.data_buffer.1 } }
          else if (cpu.registers.ir >>> 4) &&& 0x03 = 1 then
          { cpu with registers := { cpu.registers with
              sp := wrap16 (cpu.registers.sp + 1), d := b, e := cpu.data_buffer.1 } }
          else if (cpu.registers.ir >>> 4) &&& 0x03 = 2 then
          { cpu with registers := { cpu.registers with
              sp := wrap16 (cpu.registers.sp + 1), h := b, l := cpu.data_buffer.1 } }
          else
          { cpu with
            registers := { cpu.registers with
              sp := wrap16 (cpu.registers.sp + 1), a := b },
            flags := cpu.data_buffer.1 &&& 0xF0 }) hw := by
  unfold Cpu.step_instruction_pop
  rw [h]
  simp only [hb, Option.some_bind]

set_option maxHeartbeats 4000000 in
/-- C9: for every register pair (BC = 0, DE = 1, HL = 2, AF = 3) and every
starting state with SP pointing into work RAM, `PUSH rp` immediately followed
by `POP rp` succeeds, restores SP, and restores the pair — except that in the
AF case the flags come back with their low nibble forced to zero, POP AF
masking `F & 0xF0` in all cases. -/
theorem c9_push_pop_roundtrip (cpu : Cpu) (hw : Hardware) (rp : Nat)
    (hrp : rp < 4) (hsp1 : 0xC002 ≤ cpu.registers.sp)
    (hsp2 : cpu.registers.sp ≤ 0xE000) (hrom : hw.cartridge.romOk)
    (hbug : cpu.halt_bug = false) :
    (push_pop rp cpu hw).isSome ∧
    (push_pop rp cpu hw).map (fun p => p.1.registers.sp) = some cpu.registers.sp ∧
    (rp = 0 → (push_pop rp cpu hw).map
        (fun p => (p.1.registers.b, p.1.registers.c)) =
      some (cpu.registers.b, cpu.registers.c)) ∧
    (rp = 1 → (push_pop rp cpu hw).map
        (fun p => (p.1.registers.d, p.1.registers.e)) =
      some (cpu.registers.d, cpu.registers.e)) ∧
    (rp = 2 → (push_pop rp cpu hw).map
        (fun p => (p.1.registers.h, p.1.registers.l)) =
      some (cpu.registers.h, cpu.registers.l)) ∧
    (rp = 3 → (push_pop rp cpu hw).map
        (fun p => (p.1.registers.a, p.1.flags, p.1.flags &&& 0x0F)) =
      some (cpu.registers.a, cpu.flags &&& 0xF0, 0)) := by
  have e1 : sub16 cpu.registers.sp 1 = cpu.registers.sp - 1 := by
    simp only [sub16]
    omega
  have e2 : sub16 (cpu.registers.sp - 1) 1 = cpu.registers.sp - 2 := by
    simp only [sub16]
    omega
  have e3 : wrap16 (cpu.registers.sp - 2 + 1) = cpu.registers.sp - 1 := by
    simp only [wrap16]
    omega
  have e4 : wrap16 (cpu.registers.sp - 1 + 1) = cpu.registers.sp := by
    simp only [wrap16]
    omega
  have hne : cpu.registers.sp - 1 - 0xC000 ≠ cpu.registers.sp - 2 - 0xC000 := by omega
  interval_cases rp
  · have hx1 : ((12 : Nat) &&& 0x03) = 0 := by decide
    have hww := @write_wram_pair hw (cpu.registers.sp - 1) (cpu.registers.sp - 2)
      cpu.registers.b cpu.registers.c
      (by omega) (by omega) (by omega) (by omega)
    have hrom2 : (Hardware.write_byte (hw.write_byte (cpu.registers.sp - 1)
        cpu.registers.b) (cpu.registers.sp - 2) cpu.registers.c).cartridge.romOk :=
      Hardware.write_byte_romOk _ _ _ (Hardware.write_byte_romOk _ _ _ hrom)
    obtain ⟨bf, hbf⟩ := Option.isSome_iff_exists.mp
      (Hardware.read_byte_isSome _ hrom2 cpu.registers.pc)
    obtain ⟨bf2, hbf2⟩ := Option.isSome_iff_exists.mp
      (Hardware.read_byte_isSome _ hrom2 (wrap16 (cpu.registers.pc + 1)))
    have hrd1 : (Hardware.write_byte (hw.write_byte (cpu.registers.sp - 1)
        cpu.registers.b) (cpu.registers.sp - 2) cpu.registers.c).read_byte
        (cpu.registers.sp - 2) = some cpu.registers.c := by
      rw [hww, Hardware.read_byte_wram _ (by omega) (by omega)]
      simp [upd_same]
    have hrd2 : (Hardware.write_byte (hw.write_byte (cpu.registers.sp - 1)
        cpu.registers.b) (cpu.registers.sp - 2) cpu.registers.c).read_byte
        (cpu.registers.sp - 1) = some cpu.registers.b := by
      rw [hww, Hardware.read_byte_wram _ (by omega) (by omega)]
      simp [upd_ne _ _ _ _ hne, upd_same]
    have hp3 : ∀ (k : Cpu) (hwx : Hardware), k.cycle = CpuCycle.m3 →
        k.registers.ir = 0xC5 ||| 0 <<< 4 →
        k.step_instruction_push hwx = some
          ({ k with
            registers := { k.registers with sp := sub16 k.registers.sp 1 },
            cycle := CpuCycle.m4 }, hwx.write_byte k.registers.sp k.registers.b) := by
      intro k hwx h hir
      rw [Cpu.push_m3 _ _ h, hir]
      simp [hx1]
    have hp4 : ∀ (k : Cpu) (hwx : Hardware), k.cycle = CpuCycle.m4 →
        k.registers.ir = 0xC5 ||| 0 <<< 4 →
        k.step_instruction_push hwx =
          (Cpu.fetch_cycle k (hwx.write_byte k.registers.sp k.registers.c)).map
            (fun q => (q, hwx.write_byte k.registers.sp k.registers.c)) := by
      intro k hwx h hir
      rw [Cpu.push_m4 _ _ h, hir]
      simp [hx1]
    have hg2 : ∀ (k : Cpu), k.cycle = CpuCycle.m2 →
        k.registers.sp = cpu.registers.sp - 2 →
        Cpu.step_instruction_pop k (Hardware.write_byte (hw.write_byte (cpu.registers.sp - 1)
            cpu.registers.b) (cpu.registers.sp - 2) cpu.registers.c) = some
          { k with
            registers := { k.registers with sp := cpu.registers.sp - 1 },
            data_buffer := (cpu.registers.c, k.data_buffer.2),
            cycle := CpuCycle.m3 } := by
      intro k hcy hsp
      rw [Cpu.pop_m2 k _ cpu.registers.c hcy (by rw [hsp]; exact hrd1), hsp, e3]
    have hq3 : ∀ (k : Cpu), k.cycle = CpuCycle.m3 →
        k.registers.ir = 0xC1 ||| 0 <<< 4 →
        k.registers.sp = cpu.registers.sp - 1 →
        Cpu.step_instruction_pop k (Hardware.write_byte (hw.write_byte (cpu.registers.sp - 1)
            cpu.registers.b) (cpu.registers.sp - 2) cpu.registers.c) = Cpu.fetch_cycle
          { k with
            registers := { k.registers with
              sp := cpu.registers.sp, b := cpu.registers.b, c := k.data_buffer.1 } }
          (Hardware.write_byte (hw.write_byte (cpu.registers.sp - 1)
            cpu.registers.b) (cpu.registers.sp - 2) cpu.registers.c) := by
      intro k hcy hir hsp
      rw [Cpu.pop_m3 k _ cpu.registers.b hcy (by rw [hsp]; exact hrd2), hir, hsp, e4]
      simp [hx1]
    have hf1 : ∀ (k : Cpu), k.registers.pc = cpu.registers.pc →
        k.halt_bug = false →
        Cpu.fetch_cycle k (Hardware.write_byte (hw.write_byte (cpu.registers.sp - 1)
            cpu.registers.b) (cpu.registers.sp - 2) cpu.registers.c) = some
          { k with
            registers := { k.registers with
              pc := wrap16 (cpu.registers.pc + 1),
              ir := bf },
            cycle := CpuCycle.m1,
            last_instruction := k.registers.ir,
            should_handle_interrupts := k.interrupt_master_enabled &&
              (Hardware.write_byte (hw.write_byte (cpu.registers.sp - 1)
            cpu.registers.b) (cpu.registers.sp - 2) cpu.registers.c).has_pending_interrupts } := by
      intro k hpc hkbug
      rw [Cpu.fetch_cycle_some k _ bf (by rw [hpc]; exact hbf) hkbug, hpc]
    have hf2 : ∀ (k : Cpu), k.registers.pc = wrap16 (cpu.registers.pc + 1) →
        k.halt_bug = false →
        Cpu.fetch_cycle k (Hardware.write_byte (hw.write_byte (cpu.registers.sp - 1)
            cpu.registers.b) (cpu.registers.sp - 2) cpu.registers.c) = some
          { k with
            registers := { k.registers with
              pc := wrap16 (wrap16 (cpu.registers.pc + 1) + 1),
              ir := bf2 },
            cycle := CpuCycle.m1,
            last_instruction := k.registers.ir,
            should_handle_interrupts := k.interrupt_master_enabled &&
              (Hardware.write_byte (hw.write_byte (cpu.registers.sp - 1)
            cpu.registers.b) (cpu.registers.sp - 2) cpu.registers.c).has_pending_interrupts } := by
      intro k hpc hkbug
      rw [Cpu.fetch_cycle_some k _ bf2 (by rw [hpc]; exact hbf2) hkbug, hpc]
    have heq : push_pop 0 cpu hw = some
        ({ cpu with
          registers := { cpu.registers with
            b := cpu.registers.b,
            c := cpu.registers.c,
            pc := wrap16 (wrap16 (cpu.registers.pc + 1) + 1),
            sp := cpu.registers.sp,
            ir := bf2 },
          cycle := CpuCycle.m1,
          should_handle_interrupts := cpu.interrupt_master_enabled &&
            (Hardware.write_byte (hw.write_byte (cpu.registers.sp - 1)
              cpu.registers.b) (cpu.registers.sp - 2)
              cpu.registers.c).has_pending_interrupts,
          last_instruction := 0xC1,
          data_buffer := (cpu.registers.c, cpu.data_buffer.2) },
        Hardware.write_byte (hw.write_byte (cpu.registers.sp - 1)
          cpu.registers.b) (cpu.registers.sp - 2) cpu.registers.c) := by
      simp only [push_pop, Cpu.push_m1, Cpu.push_m2, hp3, hp4,
        Cpu.pop_m1, hg2, hq3, hf1, hf2,
        Option.some_bind, Option.map_some', e1, e2, e3, e4,
        hrd1, hrd2, hbug]
      try rfl
    refine ⟨?_, ?_, ?_, ?_, ?_, ?_⟩
    · rw [heq]; rfl
    · rw [heq]; rfl
    · intro _; rw [heq]; rfl
    · intro h; exact absurd h (by decide)
    · intro h; exact absurd h (by decide)
    · intro h; exact absurd h (by decide)
  · have hx1 : ((13 : Nat) &&& 0x03) = 1 := by decide
    have hww := @write_wram_pair hw (cpu.registers.sp - 1) (cpu.registers.sp - 2)
      cpu.registers.d cpu.registers.e
      (by omega) (by omega) (by omega) (by omega)
    have hrom2 : (Hardware.write_byte (hw.write_byte (cpu.registers.sp - 1)
        cpu.registers.d) (cpu.registers.sp - 2) cpu.registers.e).cartridge.romOk :=
      Hardware.write_byte_romOk _ _ _ (Hardware.write_byte_romOk _ _ _ hrom)
    obtain ⟨bf, hbf⟩ := Option.isSome_iff_exists.mp
      (Hardware.read_byte_isSome _ hrom2 cpu.registers.pc)
    obtain ⟨bf2, hbf2⟩ := Option.isSome_iff_exists.mp
      (Hardware.read_byte_isSome _ hrom2 (wrap16 (cpu.registers.pc + 1)))
    have hrd1 : (Hardware.write_byte (hw.write_byte (cpu.registers.sp - 1)
        cpu.registers.d) (cpu.registers.sp - 2) cpu.registers.e).read_byte
        (cpu.registers.sp - 2) = some cpu.registers.e := by
      rw [hww, Hardware.read_byte_wram _ (by omega) (by omega)]
      simp [upd_same]
    have hrd2 : (Hardware.write_byte (hw.write_byte (cpu.registers.sp - 1)
        cpu.registers.d) (cpu.registers.sp - 2) cpu.registers.e).read_byte
        (cpu.registers.sp - 1) = some cpu.registers.d := by
      rw [hww, Hardware.read_byte_wram _ (by omega) (by omega)]
      simp [upd_ne _ _ _ _ hne, upd_same]
    have hp3 : ∀ (k : Cpu) (hwx : Hardware), k.cycle = CpuCycle.m3 →
        k.registers.ir = 0xC5 ||| 1 <<< 4 →
        k.step_instruction_push hwx = some
          ({ k with
            registers := { k.registers with sp := sub16 k.registers.sp 1 },
            cycle := CpuCycle.m4 }, hwx.write_byte k.registers.sp k.registers.d) := by
      intro k hwx h hir
      rw [Cpu.push_m3 _ _ h, hir]
      simp [hx1]
    have hp4 : ∀ (k : Cpu) (hwx : Hardware), k.cycle = CpuCycle.m4 →
        k.registers.ir = 0xC5 ||| 1 <<< 4 →
        k.step_instruction_push hwx =
          (Cpu.fetch_cycle k (hwx.write_byte k.registers.sp k.registers.e)).map
            (fun q => (q, hwx.write_byte k.registers.sp k.registers.e)) := by
      intro k hwx h hir
      rw [Cpu.push_m4 _ _ h, hir]
      simp [hx1]
    have hg2 : ∀ (k : Cpu), k.cycle = CpuCycle.m2 →
        k.registers.sp = cpu.registers.sp - 2 →
        Cpu.step_instruction_pop k (Hardware.write_byte (hw.write_byte (cpu.registers.sp - 1)
            cpu.registers.d) (cpu.registers.sp - 2) cpu.registers.e) = some
          { k with
            registers := { k.registers with sp := cpu.registers.sp - 1 },
            data_buffer := (cpu.registers.e, k.data_buffer.2),
            cycle := CpuCycle.m3 } := by
      intro k hcy hsp
      rw [Cpu.pop_m2 k _ cpu.registers.e hcy (by rw [hsp]; exact hrd1), hsp, e3]
    have hq3 : ∀ (k : Cpu), k.cycle = CpuCycle.m3 →
        k.registers.ir = 0xC1 ||| 1 <<< 4 →
        k.registers.sp = cpu.registers.sp - 1 →
        Cpu.step_instruction_pop k (Hardware.write_byte (hw.write_byte (cpu.registers.sp - 1)
            cpu.registers.d) (cpu.registers.sp - 2) cpu.registers.e) = Cpu.fetch_cycle
          { k with
            registers := { k.registers with
              sp := cpu.registers.sp, d := cpu.registers.d, e := k.data_buffer.1 } }
          (Hardware.write_byte (hw.write_byte (cpu.registers.sp - 1)
            cpu.registers.d) (cpu.registers.sp - 2) cpu.registers.e) := by
      intro k hcy hir hsp
      rw [Cpu.pop_m3 k _ cpu.registers.d hcy (by rw [hsp]; exact hrd2), hir, hsp, e4]
      simp [hx1]
    have hf1 : ∀ (k : Cpu), k.registers.pc = cpu.registers.pc →
        k.halt_bug = false →
        Cpu.fetch_cycle k (Hardware.write_byte (hw.write_byte (cpu.registers.sp - 1)
            cpu.registers.d) (cpu.registers.sp - 2) cpu.registers.e) = some
          { k with
            registers := { k.registers with
              pc := wrap16 (cpu.registers.pc + 1),
              ir := bf },
            cycle := CpuCycle.m1,
            last_instruction := k.registers.ir,
            should_handle_interrupts := k.interrupt_master_enabled &&
              (Hardware.write_byte (hw.write_byte (cpu.registers.sp - 1)
            cpu.registers.d) (cpu.registers.sp - 2) cpu.registers.e).has_pending_interrupts } := by
      intro k hpc hkbug
      rw [Cpu.fetch_cycle_some k _ bf (by rw [hpc]; exact hbf) hkbug, hpc]
    have hf2 : ∀ (k : Cpu), k.registers.pc = wrap16 (cpu.registers.pc + 1) →
        k.halt_bug = false →
        Cpu.fetch_cycle k (Hardware.write_byte (hw.write_byte (cpu.registers.sp - 1)
            cpu.registers.d) (cpu.registers.sp - 2) cpu.registers.e) = some
          { k with
            registers := { k.registers with
              pc := wrap16 (wrap16 (cpu.registers.pc + 1) + 1),
              ir := bf2 },
            cycle := CpuCycle.m1,
            last_instruction := k.registers.ir,
            should_handle_interrupts := k.interrupt_master_enabled &&
              (Hardware.write_byte (hw.write_byte (cpu.registers.sp - 1)
            cpu.registers.d) (cpu.registers.sp - 2) cpu.registers.e).has_pending_interrupts } := by
      intro k hpc hkbug
      rw [Cpu.fetch_cycle_some k _ bf2 (by rw [hpc]; exact hbf2) hkbug, hpc]
    have heq : push_pop 1 cpu hw = some
        ({ cpu with
          registers := { cpu.registers with
            d := cpu.registers.d,
            e := cpu.registers.e,
            pc := wrap16 (wrap16 (cpu.registers.pc + 1) + 1),
            sp := cpu.registers.sp,
            ir := bf2 },
          cycle := CpuCycle.m1,
          should_handle_interrupts := cpu.interrupt_master_enabled &&
            (Hardware.write_byte (hw.write_byte (cpu.registers.sp - 1)
              cpu.registers.d) (cpu.registers.sp - 2)
              cpu.registers.e).has_pending_interrupts,
          last_instruction := 0xD1,
          data_buffer := (cpu.registers.e, cpu.data_buffer.2) },
        Hardware.write_byte (hw.write_byte (cpu.registers.sp - 1)
          cpu.registers.d) (cpu.registers.sp - 2) cpu.registers.e) := by
      simp only [push_pop, Cpu.push_m1, Cpu.push_m2, hp3, hp4,
        Cpu.pop_m1, hg2, hq3, hf1, hf2,
        Option.some_bind, Option.map_some', e1, e2, e3, e4,
        hrd1, hrd2, hbug]
      try rfl
    refine ⟨?_, ?_, ?_, ?_, ?_, ?_⟩
    · rw [heq]; rfl
    · rw [heq]; rfl
    · intro h; exact absurd h (by decide)
    · intro _; rw [heq]; rfl
    · intro h; exact absurd h (by decide)
    · intro h; exact absurd h (by decide)
  · have hx1 : ((14 : Nat) &&& 0x03) = 2 := by decide
    have hww := @write_wram_pair hw (cpu.registers.sp - 1) (cpu.registers.sp - 2)
      cpu.registers.h cpu.registers.l
      (by omega) (by omega) (by omega) (by omega)
    have hrom2 : (Hardware.write_byte (hw.write_byte (cpu.registers.sp - 1)
        cpu.registers.h) (cpu.registers.sp - 2) cpu.registers.l).cartridge.romOk :=
      Hardware.write_byte_romOk _ _ _ (Hardware.write_byte_romOk _ _ _ hrom)
    obtain ⟨bf, hbf⟩ := Option.isSome_iff_exists.mp
      (Hardware.read_byte_isSome _ hrom2 cpu.registers.pc)
    obtain ⟨bf2, hbf2⟩ := Option.isSome_iff_exists.mp
      (Hardware.read_byte_isSome _ hrom2 (wrap16 (cpu.registers.pc + 1)))
    have hrd1 : (Hardware.write_byte (hw.write_byte (cpu.registers.sp - 1)
        cpu.registers.h) (cpu.registers.sp - 2) cpu.registers.l).read_byte
        (cpu.registers.sp - 2) = some cpu.registers.l := by
      rw [hww, Hardware.read_byte_wram _ (by omega) (by omega)]
      simp [upd_same]
    have hrd2 : (Hardware.write_byte (hw.write_byte (cpu.registers.sp - 1)
        cpu.registers.h) (cpu.registers.sp - 2) cpu.registers.l).read_byte
        (cpu.registers.sp - 1) = some cpu.registers.h := by
      rw [hww, Hardware.read_byte_wram _ (by omega) (by omega)]
      simp [upd_ne _ _ _ _ hne, upd_same]
    have hp3 : ∀ (k : Cpu) (hwx : Hardware), k.cycle = CpuCycle.m3 →
        k.registers.ir = 0xC5 ||| 2 <<< 4 →
        k.step_instruction_push hwx = some
          ({ k with
            registers := { k.registers with sp := sub16 k.registers.sp 1 },
            cycle := CpuCycle.m4 }, hwx.write_byte k.registers.sp k.registers.h) := by
      intro k hwx h hir
      rw [Cpu.push_m3 _ _ h, hir]
      simp [hx1]
    have hp4 : ∀ (k : Cpu) (hwx : Hardware), k.cycle = CpuCycle.m4 →
        k.registers.ir = 0xC5 ||| 2 <<< 4 →
        k.step_instruction_push hwx =
          (Cpu.fetch_cycle k (hwx.write_byte k.registers.sp k.registers.l)).map
            (fun q => (q, hwx.write_byte k.registers.sp k.registers.l)) := by
      intro k hwx h hir
      rw [Cpu.push_m4 _ _ h, hir]
      simp [hx1]
    have hg2 : ∀ (k : Cpu), k.cycle = CpuCycle.m2 →
        k.registers.sp = cpu.registers.sp - 2 →
        Cpu.step_instruction_pop k (Hardware.write_byte (hw.write_byte (cpu.registers.sp - 1)
            cpu.registers.h) (cpu.registers.sp - 2) cpu.registers.l) = some
          { k with
            registers := { k.registers with sp := cpu.registers.sp - 1 },
            data_buffer := (cpu.registers.l, k.data_buffer.2),
            cycle := CpuCycle.m3 } := by
      intro k hcy hsp
      rw [Cpu.pop_m2 k _ cpu.registers.l hcy (by rw [hsp]; exact hrd1), hsp, e3]
    have hq3 : ∀ (k : Cpu), k.cycle = CpuCycle.m3 →
        k.registers.ir = 0xC1 ||| 2 <<< 4 →
        k.registers.sp = cpu.registers.sp - 1 →
        Cpu.step_instruction_pop k (Hardware.write_byte (hw.write_byte (cpu.registers.sp - 1)
            cpu.registers.h) (cpu.registers.sp - 2) cpu.registers.l) = Cpu.fetch_cycle
          { k with
            registers := { k.registers with
              sp := cpu.registers.sp, h := cpu.registers.h, l := k.data_buffer.1 } }
          (Hardware.write_byte (hw.write_byte (cpu.registers.sp - 1)
            cpu.registers.h) (cpu.registers.sp - 2) cpu.registers.l) := by
      intro k hcy hir hsp
      rw [Cpu.pop_m3 k _ cpu.registers.h hcy (by rw [hsp]; exact hrd2), hir, hsp, e4]
      simp [hx1]
    have hf1 : ∀ (k : Cpu), k.registers.pc = cpu.registers.pc →
        k.halt_bug = false →
        Cpu.fetch_cycle k (Hardware.write_byte (hw.write_byte (cpu.registers.sp - 1)
            cpu.registers.h) (cpu.registers.sp - 2) cpu.registers.l) = some
          { k with
            registers := { k.registers with
              pc := wrap16 (cpu.registers.pc + 1),
              ir := bf },
            cycle := CpuCycle.m1,
            last_instruction := k.registers.ir,
            should_handle_interrupts := k.interrupt_master_enabled &&
              (Hardware.write_byte (hw.write_byte (cpu.registers.sp - 1)
            cpu.registers.h) (cpu.registers.sp - 2) cpu.registers.l).has_pending_interrupts } := by
      intro k hpc hkbug
      rw [Cpu.fetch_cycle_some k _ bf (by rw [hpc]; exact hbf) hkbug, hpc]
    have hf2 : ∀ (k : Cpu), k.registers.pc = wrap16 (cpu.registers.pc + 1) →
        k.halt_bug = false →
        Cpu.fetch_cycle k (Hardware.write_byte (hw.write_byte (cpu.registers.sp - 1)
            cpu.registers.h) (cpu.registers.sp - 2) cpu.registers.l) = some
          { k with
            registers := { k.registers with
              pc := wrap16 (wrap16 (cpu.registers.pc + 1) + 1),
              ir := bf2 },
            cycle := CpuCycle.m1,
            last_instruction := k.registers.ir,
            should_handle_interrupts := k.interrupt_master_enabled &&
              (Hardware.write_byte (hw.write_byte (cpu.registers.sp - 1)
            cpu.registers.h) (cpu.registers.sp - 2) cpu.registers.l).has_pending_interrupts } := by
      intro k hpc hkbug
      rw [Cpu.fetch_cycle_some k _ bf2 (by rw [hpc]; exact hbf2) hkbug, hpc]
    have heq : push_pop 2 cpu hw = some
        ({ cpu with
          registers := { cpu.registers with
            h := cpu.registers.h,
            l := cpu.registers.l,
            pc := wrap16 (wrap16 (cpu.registers.pc + 1) + 1),
            sp := cpu.registers.sp,
            ir := bf2 },
          cycle := CpuCycle.m1,
          should_handle_interrupts := cpu.interrupt_master_enabled &&
            (Hardware.write_byte (hw.write_byte (cpu.registers.sp - 1)
              cpu.registers.h) (cpu.registers.sp - 2)
              cpu.registers.l).has_pending_interrupts,
          last_instruction := 0xE1,
          data_buffer := (cpu.registers.l, cpu.data_buffer.2) },
        Hardware.write_byte (hw.write_byte (cpu.registers.sp - 1)
          cpu.registers.h) (cpu.registers.sp - 2) cpu.registers.l) := by
      simp only [push_pop, Cpu.push_m1, Cpu.push_m2, hp3, hp4,
        Cpu.pop_m1, hg2, hq3, hf1, hf2,
        Option.some_bind, Option.map_some', e1, e2, e3, e4,
        hrd1, hrd2, hbug]
      try rfl
    refine ⟨?_, ?_, ?_, ?_, ?_, ?_⟩
    · rw [heq]; rfl
    · rw [heq]; rfl
    · intro h; exact absurd h (by decide)
    · intro h; exact absurd h (by decide)
    · intro _; rw [heq]; rfl
    · intro h; exact absurd h (by decide)
  · have hx1 : ((15 : Nat) &&& 0x03) = 3 := by decide
    have hww := @write_wram_pair hw (cpu.registers.sp - 1) (cpu.registers.sp - 2)
      cpu.registers.a cpu.flags
      (by omega) (by omega) (by omega) (by omega)
    have hrom2 : (Hardware.write_byte (hw.write_byte (cpu.registers.sp - 1)
        cpu.registers.a) (cpu.registers.sp - 2) cpu.flags).cartridge.romOk :=
      Hardware.write_byte_romOk _ _ _ (Hardware.write_byte_romOk _ _ _ hrom)
    obtain ⟨bf, hbf⟩ := Option.isSome_iff_exists.mp
      (Hardware.read_byte_isSome _ hrom2 cpu.registers.pc)
    obtain ⟨bf2, hbf2⟩ := Option.isSome_iff_exists.mp
      (Hardware.read_byte_isSome _ hrom2 (wrap16 (cpu.registers.pc + 1)))
    have hrd1 : (Hardware.write_byte (hw.write_byte (cpu.registers.sp - 1)
        cpu.registers.a) (cpu.registers.sp - 2) cpu.flags).read_byte
        (cpu.registers.sp - 2) = some cpu.flags := by
      rw [hww, Hardware.read_byte_wram _ (by omega) (by omega)]
      simp [upd_same]
    have hrd2 : (Hardware.write_byte (hw.write_byte (cpu.registers.sp - 1)
        cpu.registers.a) (cpu.registers.sp - 2) cpu.flags).read_byte
        (cpu.registers.sp - 1) = some cpu.registers.a := by
      rw [hww, Hardware.read_byte_wram _ (by omega) (by omega)]
      simp [upd_ne _ _ _ _ hne, upd_same]
    have hmask : cpu.flags &&& 0xF0 &&& 0x0F = 0 := by
      have h0 : ((0xF0 : Nat) &&& 0x0F) = 0 := by decide
      rw [Nat.and_assoc, h0, Nat.and_zero]
    have hp3 : ∀ (k : Cpu) (hwx : Hardware), k.cycle = CpuCycle.m3 →
        k.registers.ir = 0xC5 ||| 3 <<< 4 →
        k.step_instruction_push hwx = some
          ({ k with
            registers := { k.registers with sp := sub16 k.registers.sp 1 },
            cycle := CpuCycle.m4 }, hwx.write_byte k.registers.sp k.registers.a) := by
      intro k hwx h hir
      rw [Cpu.push_m3 _ _ h, hir]
      simp [hx1]
    have hp4 : ∀ (k : Cpu) (hwx : Hardware), k.cycle = CpuCycle.m4 →
        k.registers.ir = 0xC5 ||| 3 <<< 4 →
        k.step_instruction_push hwx =
          (Cpu.fetch_cycle k (hwx.write_byte k.registers.sp k.flags)).map
            (fun q => (q, hwx.write_byte k.registers.sp k.flags)) := by
      intro k hwx h hir
      rw [Cpu.push_m4 _ _ h, hir]
      simp [hx1]
    have hg2 : ∀ (k : Cpu), k.cycle = CpuCycle.m2 →
        k.registers.sp = cpu.registers.sp - 2 →
        Cpu.step_instruction_pop k (Hardware.write_byte (hw.write_byte (cpu.registers.sp - 1)
            cpu.registers.a) (cpu.registers.sp - 2) cpu.flags) = some
          { k with
            registers := { k.registers with sp := cpu.registers.sp - 1 },
            data_buffer := (cpu.flags, k.data_buffer.2),
            cycle := CpuCycle.m3 } := by
      intro k hcy hsp
      rw [Cpu.pop_m2 k _ cpu.flags hcy (by rw [hsp]; exact hrd1), hsp, e3]
    have hq3 : ∀ (k : Cpu), k.cycle = CpuCycle.m3 →
        k.registers.ir = 0xC1 ||| 3 <<< 4 →
        k.registers.sp = cpu.registers.sp - 1 →
        Cpu.step_instruction_pop k (Hardware.write_byte (hw.write_byte (cpu.registers.sp - 1)
            cpu.registers.a) (cpu.registers.sp - 2) cpu.flags) = Cpu.fetch_cycle
          { k with
            registers := { k.registers with
              sp := cpu.registers.sp, a := cpu.registers.a },
            flags := k.data_buffer.1 &&& 0xF0 }
          (Hardware.write_byte (hw.write_byte (cpu.registers.sp - 1)
            cpu.registers.a) (cpu.registers.sp - 2) cpu.flags) := by
      intro k hcy hir hsp
      rw [Cpu.pop_m3 k _ cpu.registers.a hcy (by rw [hsp]; exact hrd2), hir, hsp, e4]
      simp [hx1]
    have hf1 : ∀ (k : Cpu), k.registers.pc = cpu.registers.pc →
        k.halt_bug = false →
        Cpu.fetch_cycle k (Hardware.write_byte (hw.write_byte (cpu.registers.sp - 1)
            cpu.registers.a) (cpu.registers.sp - 2) cpu.flags) = some
          { k with
            registers := { k.registers with
              pc := wrap16 (cpu.registers.pc + 1),
              ir := bf },
            cycle := CpuCycle.m1,
            last_instruction := k.registers.ir,
            should_handle_interrupts := k.interrupt_master_enabled &&
              (Hardware.write_byte (hw.write_byte (cpu.registers.sp - 1)
            cpu.registers.a) (cpu.registers.sp - 2) cpu.flags).has_pending_interrupts } := by
      intro k hpc hkbug
      rw [Cpu.fetch_cycle_some k _ bf (by rw [hpc]; exact hbf) hkbug, hpc]
    have hf2 : ∀ (k : Cpu), k.registers.pc = wrap16 (cpu.registers.pc + 1) →
        k.halt_bug = false →
        Cpu.fetch_cycle k (Hardware.write_byte (hw.write_byte (cpu.registers.sp - 1)
            cpu.registers.a) (cpu.registers.sp - 2) cpu.flags) = some
          { k with
            registers := { k.registers with
              pc := wrap16 (wrap16 (cpu.registers.pc + 1) + 1),
              ir := bf2 },
            cycle := CpuCycle.m1,
            last_instruction := k.registers.ir,
            should_handle_interrupts := k.interrupt_master_enabled &&
              (Hardware.write_byte (hw.write_byte (cpu.registers.sp - 1)
            cpu.registers.a) (cpu.registers.sp - 2) cpu.flags).has_pending_interrupts } := by
      intro k hpc hkbug
      rw [Cpu.fetch_cycle_some k _ bf2 (by rw [hpc]; exact hbf2) hkbug, hpc]
    have heq : push_pop 3 cpu hw = some
        ({ cpu with
          registers := { cpu.registers with
            a := cpu.registers.a,
            pc := wrap16 (wrap16 (cpu.registers.pc + 1) + 1),
            sp := cpu.registers.sp,
            ir := bf2 },
          flags := cpu.flags &&& 0xF0,
          cycle := CpuCycle.m1,
          should_handle_interrupts := cpu.interrupt_master_enabled &&
            (Hardware.write_byte (hw.write_byte (cpu.registers.sp - 1)
              cpu.registers.a) (cpu.registers.sp - 2)
              cpu.flags).has_pending_interrupts,
          last_instruction := 0xF1,
          data_buffer := (cpu.flags, cpu.data_buffer.2) },
        Hardware.write_byte (hw.write_byte (cpu.registers.sp - 1)
          cpu.registers.a) (cpu.registers.sp - 2) cpu.flags) := by
      simp only [push_pop, Cpu.push_m1, Cpu.push_m2, hp3, hp4,
        Cpu.pop_m1, hg2, hq3, hf1, hf2,
        Option.some_bind, Option.map_some', e1, e2, e3, e4,
        hrd1, hrd2, hbug]
      try rfl
    refine ⟨?_, ?_, ?_, ?_, ?_, ?_⟩
    · rw [heq]; rfl
    · rw [heq]; rfl
    · intro h; exact absurd h (by decide)
    · intro h; exact absurd h (by decide)
    · intro h; exact absurd h (by decide)
    · intro _
      rw [heq]
      show some (cpu.registers.a, cpu.flags &&& 0xF0, cpu.flags &&& 0xF0 &&& 0x0F) = _
      rw [hmask]

/-- A CPU about to push BC = 0x1234 with the stack at 0xD000 in work RAM. -/
def cpuPush : Cpu :=
  { Cpu.new with
    registers := { Registers.default with sp := 0xD000, pc := 0xC100, b := 0x12, c := 0x34 } }

/-- Witness for C9: `PUSH BC; POP BC` from SP = 0xD000 restores SP and BC. -/
theorem c9_push_pop_roundtrip_witness :
    ((0 : Nat) < 4 ∧ 0xC002 ≤ cpuPush.registers.sp ∧
      cpuPush.registers.sp ≤ 0xE000 ∧ cpuPush.halt_bug = false) ∧
    (push_pop 0 cpuPush (hwBase (.mbc1 mbcEmpty))).map
      (fun p => p.1.registers.sp) = some 0xD000 ∧
    (push_pop 0 cpuPush (hwBase (.mbc1 mbcEmpty))).map
      (fun p => (p.1.registers.b, p.1.registers.c)) = some (0x12, 0x34) := by
  have h := c9_push_pop_roundtrip cpuPush (hwBase (.mbc1 mbcEmpty)) 0
    (by decide) (by decide) (by decide) trivial rfl
  exact ⟨⟨by decide, by decide, by decide, rfl⟩, h.2.1, h.2.2.1 rfl⟩

end GB
